import Mathlib

/-!
Verification development for the tokenoptimizer analytics backend.

The definitions below are a shallow embedding of the Python source under
`src/backend/`:

* datetimes are modelled by the structure `DT` (year/month/day/hour/minute/
  second as naturals); Python `datetime` comparison is field-lexicographic,
  modelled by the numeric key `DT.key` (faithful for calendar-valid field
  ranges, which is all the code ever compares);
* monetary amounts and token counts are modelled as rationals (`ℚ`);
  Python float rounding is modelled as exact half-even rounding on `ℚ`;
* Python's stable `list.sort` is modelled by the stable insertion sort
  `sortLeB`;
* a Python `raise` caught at a function boundary is modelled with `Except`;
* the external Supabase store is modelled by passing the row lists that its
  queries return as explicit arguments.
-/

namespace TokenOptimizer

/-! ### Stable sorting (Python `list.sort` / `sorted`)

Python's sort is stable.  `sortLeB le` with `le x y = true` meaning
"`x` may stay in front of `y`" is the classical stable insertion sort:
an element is inserted in front of the first already-placed element it
compares `le`-true against, so ties keep their original order, exactly as
CPython's stable sort does (also with `reverse=True`). -/

def insertLeB (le : α → α → Bool) (x : α) : List α → List α
  | [] => [x]
  | y :: ys => if le x y then x :: y :: ys else y :: insertLeB le x ys

def sortLeB (le : α → α → Bool) : List α → List α
  | [] => []
  | x :: xs => insertLeB le x (sortLeB le xs)

theorem mem_insertLeB (le : α → α → Bool) (x : α) (l : List α) (a : α) :
    a ∈ insertLeB le x l ↔ a = x ∨ a ∈ l := by
  induction l with
  | nil => simp [insertLeB]
  | cons y ys ih =>
    by_cases h : le x y = true
    · simp [insertLeB, h]
    · simp only [insertLeB, if_neg h, List.mem_cons, ih]
      tauto

theorem perm_insertLeB (le : α → α → Bool) (x : α) (l : List α) :
    List.Perm (insertLeB le x l) (x :: l) := by
  induction l with
  | nil => simp [insertLeB]
  | cons y ys ih =>
    by_cases h : le x y = true
    · simp [insertLeB, h]
    · simp only [insertLeB, if_neg h]
      exact (ih.cons y).trans (List.Perm.swap x y ys)

theorem perm_sortLeB (le : α → α → Bool) (l : List α) :
    List.Perm (sortLeB le l) l := by
  induction l with
  | nil => simp [sortLeB]
  | cons x xs ih =>
    exact (perm_insertLeB le x (sortLeB le xs)).trans (ih.cons x)

theorem mem_sortLeB (le : α → α → Bool) (l : List α) (a : α) :
    a ∈ sortLeB le l ↔ a ∈ l :=
  (perm_sortLeB le l).mem_iff

theorem pairwise_insertLeB (le : α → α → Bool)
    (htot : ∀ a b, le a b = true ∨ le b a = true)
    (htrans : ∀ a b c, le a b = true → le b c = true → le a c = true)
    (x : α) (l : List α) (hl : l.Pairwise (fun a b => le a b = true)) :
    (insertLeB le x l).Pairwise (fun a b => le a b = true) := by
  induction l with
  | nil => simp [insertLeB]
  | cons y ys ih =>
    rw [List.pairwise_cons] at hl
    obtain ⟨hy, hys⟩ := hl
    by_cases h : le x y = true
    · rw [insertLeB, if_pos h]
      refine List.Pairwise.cons ?_ (List.Pairwise.cons hy hys)
      intro b hb
      rcases List.mem_cons.mp hb with rfl | hb
      · exact h
      · exact htrans x y b h (hy b hb)
    · have hyx : le y x = true := (htot x y).resolve_left h
      rw [insertLeB, if_neg h]
      refine List.Pairwise.cons ?_ (ih hys)
      intro b hb
      rcases (mem_insertLeB le x ys b).mp hb with rfl | hb
      · exact hyx
      · exact hy b hb

theorem pairwise_sortLeB (le : α → α → Bool)
    (htot : ∀ a b, le a b = true ∨ le b a = true)
    (htrans : ∀ a b c, le a b = true → le b c = true → le a c = true)
    (l : List α) :
    (sortLeB le l).Pairwise (fun a b => le a b = true) := by
  induction l with
  | nil => simp [sortLeB]
  | cons x xs ih => exact pairwise_insertLeB le htot htrans x (sortLeB le xs) ih

/-! ### Calendar model

`DT` models a (naive or UTC) Python `datetime`.  All datetimes handled by
the backend are calendar-valid, so every field is far below 400 and the
packed key below is strictly monotone in the field-lexicographic order that
Python `datetime` comparison uses; it is also the order of the backend's
zero-padded `strftime` bucket-key strings. -/

structure DT where
  year : ℕ
  month : ℕ
  day : ℕ
  hour : ℕ
  minute : ℕ
  second : ℕ
deriving DecidableEq, Repr

def DT.key (t : DT) : ℕ :=
  ((((t.year * 400 + t.month) * 400 + t.day) * 400 + t.hour) * 400 + t.minute) * 400 + t.second

/-- Gregorian leap-year rule, as Python's `calendar`/`datetime` use. -/
def isLeap (y : ℕ) : Bool :=
  (y % 4 == 0 && y % 100 != 0) || y % 400 == 0

def daysInMonth (y m : ℕ) : ℕ :=
  if m == 2 then (if isLeap y then 29 else 28)
  else if m == 4 || m == 6 || m == 9 || m == 11 then 30
  else 31

/-- Next calendar day (time-of-day preserved), as `timedelta(days=1)` acts
on a valid `datetime`. -/
def succDay (t : DT) : DT :=
  if t.day + 1 ≤ daysInMonth t.year t.month then { t with day := t.day + 1 }
  else if t.month == 12 then { t with year := t.year + 1, month := 1, day := 1 }
  else { t with month := t.month + 1, day := 1 }

/-- Previous calendar day (time-of-day preserved), for `t - timedelta(days=1)`. -/
def predDay (t : DT) : DT :=
  if 1 < t.day then { t with day := t.day - 1 }
  else if 1 < t.month then { t with month := t.month - 1, day := daysInMonth t.year (t.month - 1) }
  else { t with year := t.year - 1, month := 12, day := 31 }

def addDays : ℕ → DT → DT
  | 0, t => t
  | n + 1, t => addDays n (succDay t)

def subDays : ℕ → DT → DT
  | 0, t => t
  | n + 1, t => subDays n (predDay t)

/-- One hour later, as `timedelta(hours=1)` acts on a valid `datetime`. -/
def succHour (t : DT) : DT :=
  if t.hour + 1 < 24 then { t with hour := t.hour + 1 } else succDay { t with hour := 0 }

/-- Day count in the proleptic Gregorian calendar (0 at 0000-03-01),
the standard civil-from-date computation; used only to compute weekdays. -/
def dayNum (t : DT) : ℕ :=
  let y := if t.month ≤ 2 then t.year - 1 else t.year
  let mp := (t.month + 9) % 12
  365 * y + y / 4 - y / 100 + y / 400 + (153 * mp + 2) / 5 + t.day - 1

/-- Python's `datetime.weekday()`: Monday = 0 … Sunday = 6.
0000-03-01 was a Wednesday (= 2) in the proleptic Gregorian calendar. -/
def pyWeekday (t : DT) : ℕ := (dayNum t + 2) % 7

/-- Rounding half-to-even to an integer, modelling Python's `round(x)`
(banker's rounding, idealized over exact rationals). -/
def rhe (x : ℚ) : ℤ :=
  let f := ⌊x⌋
  let r := x - f
  if r < 1 / 2 then f
  else if 1 / 2 < r then f + 1
  else if 2 ∣ f then f else f + 1

/-- Python's `round(x, dp)` (idealized over exact rationals). -/
def roundDp (dp : ℕ) (x : ℚ) : ℚ :=
  (rhe (x * 10 ^ dp) : ℚ) / 10 ^ dp

/-! ### Recommendation engine

Embedding of `analyze_model_usage` (src/backend/app.py, `create_app`).
The `model_alternatives` and `model_pricing` tables of the external store
are passed as row lists; the `.eq('is_recommended', True)` and
`.eq('is_active', True)` query filters are applied here.  `metrics` is the
`Dict[str, ModelMetrics]` in insertion order.  The Python `KeyError` raised
by `price_lookup[model]` when the source model has no active price is
modelled with `Except`; the function-level `except` clause returns `[]`.
The generated `reason` sentence is display-only and not modelled. -/

structure ModelMetrics where
  total_spend : ℚ
  total_requests : ℕ
  total_tokens : ℕ
  prompt_tokens : ℕ
  completion_tokens : ℕ
deriving DecidableEq, Repr

structure AltRow where
  source_model : String
  alternative_model : String
  similarity_score : ℚ
  is_recommended : Bool
deriving DecidableEq, Repr

structure PriceRow where
  model : String
  input_price : ℚ
  output_price : ℚ
  is_active : Bool
deriving DecidableEq, Repr

structure Recommendation where
  current_model : String
  recommended_model : String
  similarity_score : ℚ
  potential_savings : ℚ
  usage_count : ℕ
deriving DecidableEq, Repr

def recommendedAlts (alts : List AltRow) : List AltRow :=
  alts.filter (fun a => a.is_recommended)

def activePrices (prices : List PriceRow) : List PriceRow :=
  prices.filter (fun p => p.is_active)

/-- Case analysis on an `Option`, as an ordinary function so that
simplification can evaluate it once the scrutinee is a constructor. -/
def optElim (o : Option α) (n : β) (f : α → β) : β :=
  match o with
  | none => n
  | some a => f a

@[simp] theorem optElim_none (n : β) (f : α → β) : optElim none n f = n := rfl

@[simp] theorem optElim_some (a : α) (n : β) (f : α → β) :
    optElim (some a) n f = f a := rfl

/-- Sequencing in the exception monad (a Python statement list in a `try`
block: an earlier raise aborts the rest). -/
def okThen (e : Except Unit α) (f : α → Except Unit β) : Except Unit β :=
  match e with
  | .error u => .error u
  | .ok a => f a

@[simp] theorem okThen_error (u : Unit) (f : α → Except Unit β) :
    okThen (.error u) f = .error u := rfl

@[simp] theorem okThen_ok (a : α) (f : α → Except Unit β) :
    okThen (.ok a) f = f a := rfl

theorem find?_cons_eq (p : α → Bool) (a : α) (l : List α) :
    List.find? p (a :: l) = if p a then some a else List.find? p l := by
  by_cases h : p a = true
  · rw [List.find?_cons_of_pos _ h, if_pos h]
  · rw [List.find?_cons_of_neg _ (by simpa using h), if_neg h]

/-- The `price_lookup` dict comprehension: a later row with the same model
name overwrites an earlier one, so lookup returns the last match (the
first match of the reversed list). -/
def priceLookup (prices : List PriceRow) (m : String) : Option PriceRow :=
  prices.reverse.find? (fun p => p.model == m)

/-- `potential_savings` for one `(model, alternative)` pair, exactly the
arithmetic of app.py lines 1126-1132. -/
def pairSavings (mm : ModelMetrics) (cur alt : PriceRow) : ℚ :=
  (mm.prompt_tokens * cur.input_price / 1000 + mm.completion_tokens * cur.output_price / 1000)
    - (mm.prompt_tokens * alt.input_price / 1000 + mm.completion_tokens * alt.output_price / 1000)

/-- The inner `for alt in model_alts` loop for one model.  A pair is only
considered when the alternative is in `price_lookup`; the source model's
own lookup is unguarded and faults (`KeyError`) when absent. -/
def emitAlts (prices : List PriceRow) (model : String) (mm : ModelMetrics) :
    List AltRow → Except Unit (List Recommendation)
  | [] => .ok []
  | alt :: rest =>
    if (priceLookup prices alt.alternative_model).isSome then
      optElim (priceLookup prices model) (.error ()) fun cur =>
        optElim (priceLookup prices alt.alternative_model) (.error ()) fun ap =>
          okThen (emitAlts prices model mm rest) fun tail =>
            .ok (if mm.total_spend * (1 / 10) < pairSavings mm cur ap then
                  { current_model := model
                    recommended_model := alt.alternative_model
                    similarity_score := alt.similarity_score
                    potential_savings := pairSavings mm cur ap
                    usage_count := mm.total_requests } :: tail
                else tail)
    else emitAlts prices model mm rest

/-- The outer `for model, model_metrics in metrics.items()` loop. -/
def goModels (alts : List AltRow) (prices : List PriceRow) :
    List (String × ModelMetrics) → Except Unit (List Recommendation)
  | [] => .ok []
  | (m, mm) :: rest =>
    okThen (emitAlts prices m mm (alts.filter (fun a => a.source_model == m))) fun recs =>
      okThen (goModels alts prices rest) fun more => .ok (recs ++ more)

/-- Stable descending sort by `potential_savings`
(`recommendations.sort(key=..., reverse=True)`). -/
def sortBySavingsDesc (recs : List Recommendation) : List Recommendation :=
  sortLeB (fun a b => decide (b.potential_savings ≤ a.potential_savings)) recs

/-- The function-level `except` clause of `analyze_model_usage`: any
exception becomes the empty recommendation list. -/
def recoverEmpty (e : Except Unit (List Recommendation)) : List Recommendation :=
  match e with
  | .ok recs => recs
  | .error _ => []

@[simp] theorem recoverEmpty_ok (recs : List Recommendation) :
    recoverEmpty (.ok recs) = recs := rfl

@[simp] theorem recoverEmpty_error (u : Unit) :
    recoverEmpty (.error u) = [] := rfl

/-- Embedding of `analyze_model_usage`: the whole body sits in a
`try`/`except` that returns `[]` on any exception; on success the list is
sorted by savings and returned. -/
def analyzeModelUsage (metrics : List (String × ModelMetrics))
    (altTable : List AltRow) (priceTable : List PriceRow) : List Recommendation :=
  recoverEmpty
    (okThen (goModels (recommendedAlts altTable) (activePrices priceTable) metrics)
      fun recs => .ok (sortBySavingsDesc recs))

/-- No-abort condition: every model in the metrics map either has an active
price itself, or none of its recommended alternatives has an active price
(so the unguarded `price_lookup[model]` is never reached). -/
def NoAbort (metrics : List (String × ModelMetrics))
    (alts : List AltRow) (prices : List PriceRow) : Prop :=
  ∀ p ∈ metrics, (priceLookup prices p.1).isSome = true ∨
    ∀ a ∈ alts.filter (fun a => a.source_model == p.1),
      (priceLookup prices a.alternative_model).isSome = false

instance (metrics : List (String × ModelMetrics)) (alts : List AltRow)
    (prices : List PriceRow) : Decidable (NoAbort metrics alts prices) := by
  unfold NoAbort
  infer_instance

theorem emitAlts_ok (prices : List PriceRow) (m : String) (mm : ModelMetrics)
    (l : List AltRow)
    (h : (priceLookup prices m).isSome = true ∨
      ∀ a ∈ l, (priceLookup prices a.alternative_model).isSome = false) :
    ∃ recs, emitAlts prices m mm l = .ok recs := by
  induction l with
  | nil => exact ⟨[], rfl⟩
  | cons alt rest ih =>
    have hrest : (priceLookup prices m).isSome = true ∨
        ∀ a ∈ rest, (priceLookup prices a.alternative_model).isSome = false := by
      rcases h with h | h
      · exact Or.inl h
      · exact Or.inr fun a ha => h a (List.mem_cons_of_mem alt ha)
    obtain ⟨recs, hrecs⟩ := ih hrest
    by_cases halt : (priceLookup prices alt.alternative_model).isSome = true
    · have hm : (priceLookup prices m).isSome = true := by
        rcases h with h | h
        · exact h
        · have := h alt (List.mem_cons_self alt rest)
          rw [this] at halt
          cases halt
      obtain ⟨cur, hcur⟩ := Option.isSome_iff_exists.mp hm
      obtain ⟨ap, hap⟩ := Option.isSome_iff_exists.mp halt
      refine ⟨if mm.total_spend * (1 / 10) < pairSavings mm cur ap then
          { current_model := m
            recommended_model := alt.alternative_model
            similarity_score := alt.similarity_score
            potential_savings := pairSavings mm cur ap
            usage_count := mm.total_requests } :: recs
        else recs, ?_⟩
      rw [emitAlts, if_pos halt, hcur, hap, hrecs]
      rfl
    · have halt' : (priceLookup prices alt.alternative_model).isSome = false :=
        Bool.not_eq_true _ ▸ (by simpa using halt)
      refine ⟨recs, ?_⟩
      rw [emitAlts, if_neg (by simp [halt']), hrecs]

theorem goModels_ok (alts : List AltRow) (prices : List PriceRow)
    (metrics : List (String × ModelMetrics)) (h : NoAbort metrics alts prices) :
    ∃ recs, goModels alts prices metrics = .ok recs := by
  induction metrics with
  | nil => exact ⟨[], rfl⟩
  | cons p rest ih =>
    obtain ⟨m, mm⟩ := p
    obtain ⟨recs, hrecs⟩ := emitAlts_ok prices m mm
      (alts.filter (fun a => a.source_model == m)) (by
        have := h (m, mm) (List.mem_cons_self _ _)
        simpa using this)
    obtain ⟨more, hmore⟩ := ih (fun q hq => h q (List.mem_cons_of_mem _ hq))
    exact ⟨recs ++ more, by rw [goModels, hrecs, hmore]; rfl⟩

/-- The recommendation that the pair `(m, alt)` produces when both lookups
succeed and the significance gate passes. -/
def mkRec (m : String) (mm : ModelMetrics) (alt : AltRow) (s : ℚ) : Recommendation :=
  { current_model := m
    recommended_model := alt.alternative_model
    similarity_score := alt.similarity_score
    potential_savings := s
    usage_count := mm.total_requests }

/-- The pair `(m, alt)` emits recommendation `r`. -/
def EmitsFrom (prices : List PriceRow) (m : String) (mm : ModelMetrics)
    (alt : AltRow) (r : Recommendation) : Prop :=
  ∃ cur ap, priceLookup prices m = some cur ∧
    priceLookup prices alt.alternative_model = some ap ∧
    mm.total_spend * (1 / 10) < pairSavings mm cur ap ∧
    r = mkRec m mm alt (pairSavings mm cur ap)

theorem mem_emitAlts (prices : List PriceRow) (m : String) (mm : ModelMetrics)
    (l : List AltRow) :
    ∀ (recs : List Recommendation), emitAlts prices m mm l = .ok recs →
      ∀ r, r ∈ recs ↔ ∃ alt ∈ l, EmitsFrom prices m mm alt r := by
  induction l with
  | nil =>
    intro recs h r
    rw [emitAlts] at h
    cases h
    simp
  | cons alt rest ih =>
    intro recs h r
    rw [emitAlts] at h
    by_cases hs : (priceLookup prices alt.alternative_model).isSome = true
    · rw [if_pos hs] at h
      obtain ⟨ap, hap⟩ := Option.isSome_iff_exists.mp hs
      cases hcur : priceLookup prices m with
      | none => rw [hcur, hap] at h; cases h
      | some cur =>
        rw [hcur, hap] at h
        cases htail : emitAlts prices m mm rest with
        | error e => rw [htail] at h; cases h
        | ok tail =>
          rw [htail] at h
          cases h
          have ihr := ih tail htail r
          by_cases hgate : mm.total_spend * (1 / 10) < pairSavings mm cur ap
          · rw [if_pos hgate]
            constructor
            · intro hr
              rcases List.mem_cons.mp hr with rfl | hr
              · exact ⟨alt, List.mem_cons_self _ _, cur, ap, hcur, hap, hgate, rfl⟩
              · obtain ⟨a, ha, he⟩ := ihr.mp hr
                exact ⟨a, List.mem_cons_of_mem _ ha, he⟩
            · rintro ⟨a, ha, cur', ap', hcur', hap', hgate', rfl⟩
              rcases List.mem_cons.mp ha with rfl | ha
              · rw [hcur'] at hcur
                rw [hap'] at hap
                cases hcur
                cases hap
                exact List.mem_cons_self _ _
              · exact List.mem_cons_of_mem _
                  (ihr.mpr ⟨a, ha, cur', ap', hcur', hap', hgate', rfl⟩)
          · rw [if_neg hgate]
            rw [ihr]
            constructor
            · rintro ⟨a, ha, he⟩
              exact ⟨a, List.mem_cons_of_mem _ ha, he⟩
            · rintro ⟨a, ha, cur', ap', hcur', hap', hgate', rfl⟩
              rcases List.mem_cons.mp ha with rfl | ha
              · rw [hcur'] at hcur
                rw [hap'] at hap
                cases hcur
                cases hap
                exact absurd hgate' hgate
              · exact ⟨a, ha, cur', ap', hcur', hap', hgate', rfl⟩
    · rw [if_neg hs] at h
      rw [ih recs h r]
      constructor
      · rintro ⟨a, ha, he⟩
        exact ⟨a, List.mem_cons_of_mem _ ha, he⟩
      · rintro ⟨a, ha, cur', ap', hcur', hap', hgate', rfl⟩
        rcases List.mem_cons.mp ha with rfl | ha
        · rw [hap'] at hs
          simp at hs
        · exact ⟨a, ha, cur', ap', hcur', hap', hgate', rfl⟩

theorem mem_goModels (alts : List AltRow) (prices : List PriceRow)
    (metrics : List (String × ModelMetrics)) :
    ∀ (recs : List Recommendation), goModels alts prices metrics = .ok recs →
      ∀ r, r ∈ recs ↔ ∃ p ∈ metrics,
        ∃ alt ∈ alts.filter (fun a => a.source_model == p.1),
          EmitsFrom prices p.1 p.2 alt r := by
  induction metrics with
  | nil =>
    intro recs h r
    rw [goModels] at h
    cases h
    simp
  | cons p rest ih =>
    intro recs h r
    obtain ⟨m, mm⟩ := p
    rw [goModels] at h
    cases hhead : emitAlts prices m mm (alts.filter (fun a => a.source_model == m)) with
    | error e => rw [hhead] at h; cases h
    | ok here =>
      rw [hhead] at h
      cases htail : goModels alts prices rest with
      | error e => rw [htail] at h; cases h
      | ok more =>
        rw [htail] at h
        cases h
        rw [List.mem_append, mem_emitAlts prices m mm _ here hhead r, ih more htail r]
        constructor
        · rintro (⟨a, ha, he⟩ | ⟨q, hq, a, ha, he⟩)
          · exact ⟨(m, mm), List.mem_cons_self _ _, a, ha, he⟩
          · exact ⟨q, List.mem_cons_of_mem _ hq, a, ha, he⟩
        · rintro ⟨q, hq, a, ha, he⟩
          rcases List.mem_cons.mp hq with rfl | hq
          · exact Or.inl ⟨a, ha, he⟩
          · exact Or.inr ⟨q, hq, a, ha, he⟩

theorem metrics_key_unique (metrics : List (String × ModelMetrics))
    (hnd : (metrics.map Prod.fst).Nodup) {m : String} {mm1 mm2 : ModelMetrics}
    (h1 : (m, mm1) ∈ metrics) (h2 : (m, mm2) ∈ metrics) : mm1 = mm2 := by
  induction metrics with
  | nil => cases h1
  | cons p rest ih =>
    rw [List.map_cons, List.nodup_cons] at hnd
    rcases List.mem_cons.mp h1 with h1 | h1
    · rcases List.mem_cons.mp h2 with h2 | h2
      · have h12 : (m, mm1) = ((m, mm2) : String × ModelMetrics) := h1.trans h2.symm
        injection h12 with _ h
      · rw [← h1] at hnd
        exact absurd (List.mem_map.mpr ⟨(m, mm2), h2, rfl⟩) hnd.1
    · rcases List.mem_cons.mp h2 with h2 | h2
      · rw [← h2] at hnd
        exact absurd (List.mem_map.mpr ⟨(m, mm1), h1, rfl⟩) hnd.1
      · exact ih hnd.2 h1 h2

/-- C1 (amended): provided no model in the usage map aborts the computation
(every model either has an active price or none of its recommended
alternatives has one), a `(model, alternative)` pair with both models
actively priced yields a recommendation in the output exactly when
`potential_savings > 0.10 * the model's total observed spend`; moreover
every recommendation in the output passes the significance gate of the
model it was generated from. -/
theorem C1_significance_gate
    (metrics : List (String × ModelMetrics)) (altTable : List AltRow)
    (priceTable : List PriceRow)
    (hnd : (metrics.map Prod.fst).Nodup)
    (hna : NoAbort metrics (recommendedAlts altTable) (activePrices priceTable))
    (m : String) (mm : ModelMetrics) (hm : (m, mm) ∈ metrics)
    (alt : AltRow) (halt : alt ∈ recommendedAlts altTable)
    (hsrc : alt.source_model = m)
    (cur ap : PriceRow)
    (hcur : priceLookup (activePrices priceTable) m = some cur)
    (hap : priceLookup (activePrices priceTable) alt.alternative_model = some ap) :
    ((∃ r ∈ analyzeModelUsage metrics altTable priceTable,
        r.current_model = m ∧ r.recommended_model = alt.alternative_model)
      ↔ mm.total_spend * (1 / 10) < pairSavings mm cur ap)
    ∧ ∀ r ∈ analyzeModelUsage metrics altTable priceTable,
        ∃ mm', (r.current_model, mm') ∈ metrics ∧
          mm'.total_spend * (1 / 10) < r.potential_savings := by
  obtain ⟨recs, hok⟩ := goModels_ok _ _ metrics hna
  have hres : analyzeModelUsage metrics altTable priceTable = sortBySavingsDesc recs := by
    rw [analyzeModelUsage, hok]
    rfl
  have hmem : ∀ r, r ∈ analyzeModelUsage metrics altTable priceTable ↔ r ∈ recs := by
    intro r
    rw [hres, sortBySavingsDesc, mem_sortLeB]
  have hchar := mem_goModels _ _ metrics recs hok
  constructor
  · constructor
    · rintro ⟨r, hr, hcm, hrm⟩
      rw [hmem] at hr
      obtain ⟨⟨q1, q2⟩, hq, a, ha, cur', ap', hcur', hap', hgate', hrdef⟩ :=
        (hchar r).mp hr
      subst hrdef
      simp only [mkRec] at hcm hrm
      subst hcm
      have hq2 : q2 = mm := metrics_key_unique metrics hnd hq hm
      subst hq2
      rw [hcur'] at hcur
      cases hcur
      rw [hrm] at hap'
      rw [hap'] at hap
      cases hap
      exact hgate'
    · intro hgate
      refine ⟨mkRec m mm alt (pairSavings mm cur ap), ?_, rfl, rfl⟩
      rw [hmem]
      apply (hchar _).mpr
      refine ⟨(m, mm), hm, alt, ?_, cur, ap, hcur, hap, hgate, rfl⟩
      rw [List.mem_filter]
      exact ⟨halt, by simp [hsrc]⟩
  · intro r hr
    rw [hmem] at hr
    obtain ⟨⟨q1, q2⟩, hq, a, ha, cur', ap', hcur', hap', hgate', hrdef⟩ :=
      (hchar r).mp hr
    subst hrdef
    exact ⟨q2, hq, hgate'⟩

def c1wMM : ModelMetrics :=
  { total_spend := 45 / 1000, total_requests := 1, total_tokens := 1500
    prompt_tokens := 1000, completion_tokens := 500 }

def c1wMetrics : List (String × ModelMetrics) := [("gpt-4", c1wMM)]

def c1wAlt : AltRow :=
  { source_model := "gpt-4", alternative_model := "gpt-3.5-turbo"
    similarity_score := 9 / 10, is_recommended := true }

def c1wPrices : List PriceRow :=
  [ { model := "gpt-4", input_price := 3 / 100, output_price := 6 / 100, is_active := true },
    { model := "gpt-3.5-turbo", input_price := 1 / 2000, output_price := 3 / 2000,
      is_active := true } ]

def c1wCur : PriceRow :=
  { model := "gpt-4", input_price := 3 / 100, output_price := 6 / 100, is_active := true }

def c1wAp : PriceRow :=
  { model := "gpt-3.5-turbo", input_price := 1 / 2000, output_price := 3 / 2000,
    is_active := true }

/-- C1 witness: the spec's own worked example (gpt-4 at 0.03/0.06 with the
gpt-3.5-turbo alternative at 0.0005/0.0015, 1000 prompt and 500 completion
tokens) satisfies every hypothesis, and the gate biconditional holds there. -/
theorem C1_significance_gate_witness :
    ((c1wMetrics.map Prod.fst).Nodup ∧
      NoAbort c1wMetrics (recommendedAlts [c1wAlt]) (activePrices c1wPrices) ∧
      ("gpt-4", c1wMM) ∈ c1wMetrics ∧ c1wAlt ∈ recommendedAlts [c1wAlt] ∧
      c1wAlt.source_model = "gpt-4" ∧
      priceLookup (activePrices c1wPrices) "gpt-4" = some c1wCur ∧
      priceLookup (activePrices c1wPrices) c1wAlt.alternative_model = some c1wAp) ∧
    (((∃ r ∈ analyzeModelUsage c1wMetrics [c1wAlt] c1wPrices,
        r.current_model = "gpt-4" ∧ r.recommended_model = c1wAlt.alternative_model)
      ↔ c1wMM.total_spend * (1 / 10) < pairSavings c1wMM c1wCur c1wAp)
    ∧ ∀ r ∈ analyzeModelUsage c1wMetrics [c1wAlt] c1wPrices,
        ∃ mm', (r.current_model, mm') ∈ c1wMetrics ∧
          mm'.total_spend * (1 / 10) < r.potential_savings) :=
  ⟨⟨by simp [c1wMetrics],
    by simp [NoAbort, c1wMetrics, recommendedAlts, activePrices, c1wPrices, c1wAlt, priceLookup],
    by simp [c1wMetrics],
    by simp [recommendedAlts, c1wAlt],
    rfl,
    by simp [priceLookup, activePrices, c1wPrices, c1wCur],
    by simp [priceLookup, activePrices, c1wPrices, c1wAlt, c1wAp]⟩,
    C1_significance_gate c1wMetrics [c1wAlt] c1wPrices (by simp [c1wMetrics])
      (by simp [NoAbort, c1wMetrics, recommendedAlts, activePrices, c1wPrices, c1wAlt,
        priceLookup])
      "gpt-4" c1wMM (by simp [c1wMetrics]) c1wAlt (by simp [recommendedAlts, c1wAlt]) rfl
      c1wCur c1wAp (by simp [priceLookup, activePrices, c1wPrices, c1wCur])
      (by simp [priceLookup, activePrices, c1wPrices, c1wAlt, c1wAp])⟩

def c1xMMBad : ModelMetrics :=
  { total_spend := 1, total_requests := 1, total_tokens := 1000
    prompt_tokens := 600, completion_tokens := 400 }

def c1xMMGood : ModelMetrics :=
  { total_spend := 45 / 1000, total_requests := 1, total_tokens := 1500
    prompt_tokens := 1000, completion_tokens := 500 }

def c1xMetrics : List (String × ModelMetrics) :=
  [("m-bad", c1xMMBad), ("m-good", c1xMMGood)]

def c1xAlts : List AltRow :=
  [ { source_model := "m-bad", alternative_model := "cheap"
      similarity_score := 1 / 2, is_recommended := true },
    { source_model := "m-good", alternative_model := "cheap"
      similarity_score := 1 / 2, is_recommended := true } ]

def c1xPrices : List PriceRow :=
  [ { model := "m-good", input_price := 3 / 100, output_price := 6 / 100, is_active := true },
    { model := "cheap", input_price := 1 / 1000, output_price := 2 / 1000, is_active := true } ]

def c1xGoodPrice : PriceRow :=
  { model := "m-good", input_price := 3 / 100, output_price := 6 / 100, is_active := true }

def c1xCheap : PriceRow :=
  { model := "cheap", input_price := 1 / 1000, output_price := 2 / 1000, is_active := true }

/-- C1 counterexample: `m-good` and its alternative `cheap` both have active
prices and the pair's savings clear the 10% gate, yet no recommendation at
all is emitted — the earlier model `m-bad` has a priced recommended
alternative but no active price of its own, so `price_lookup[model]` raises
`KeyError` and the function-level handler returns `[]`.  The claim's
"emits exactly when the gate passes" is therefore false as stated. -/
theorem C1_significance_gate_counterexample :
    analyzeModelUsage c1xMetrics c1xAlts c1xPrices = [] ∧
    priceLookup (activePrices c1xPrices) "m-good" = some c1xGoodPrice ∧
    priceLookup (activePrices c1xPrices) "cheap" = some c1xCheap ∧
    c1xMMGood.total_spend * (1 / 10) < pairSavings c1xMMGood c1xGoodPrice c1xCheap := by
  refine ⟨?_, ?_, ?_, ?_⟩
  · simp [analyzeModelUsage, goModels, emitAlts, recommendedAlts, activePrices,
      priceLookup, c1xMetrics, c1xAlts, c1xPrices, c1xMMBad, c1xMMGood]
  · simp [priceLookup, activePrices, c1xPrices, c1xGoodPrice]
  · simp [priceLookup, activePrices, c1xPrices, c1xCheap]
  · norm_num [pairSavings, c1xMMGood, c1xGoodPrice, c1xCheap]

/-- C4 (amended): the returned recommendation list is sorted by
`potential_savings` in descending order.  (`similarity_score` plays no role
in the ordering; ties keep generation order, since Python's sort is
stable.) -/
theorem C4_sorted_by_savings (metrics : List (String × ModelMetrics))
    (altTable : List AltRow) (priceTable : List PriceRow) :
    (analyzeModelUsage metrics altTable priceTable).Pairwise
      (fun a b => b.potential_savings ≤ a.potential_savings) := by
  rw [analyzeModelUsage]
  cases goModels (recommendedAlts altTable) (activePrices priceTable) metrics with
  | error e => simp
  | ok recs =>
    have h := pairwise_sortLeB
      (fun a b : Recommendation => decide (b.potential_savings ≤ a.potential_savings))
      (by
        intro a b
        rcases le_total b.potential_savings a.potential_savings with h | h
        · exact Or.inl (by simpa using h)
        · exact Or.inr (by simpa using h))
      (by
        intro a b c hab hbc
        simp only [decide_eq_true_eq] at hab hbc ⊢
        exact hbc.trans hab)
      recs
    exact List.Pairwise.imp (by intro a b hd; simpa using hd) h

def c4xMM : ModelMetrics :=
  { total_spend := 1 / 100, total_requests := 1, total_tokens := 1000
    prompt_tokens := 1000, completion_tokens := 0 }

def c4xAlts : List AltRow :=
  [ { source_model := "m", alternative_model := "x"
      similarity_score := 1 / 5, is_recommended := true },
    { source_model := "m", alternative_model := "y"
      similarity_score := 9 / 10, is_recommended := true } ]

def c4xPrices : List PriceRow :=
  [ { model := "m", input_price := 3 / 100, output_price := 0, is_active := true },
    { model := "x", input_price := 1 / 1000, output_price := 0, is_active := true },
    { model := "y", input_price := 1 / 1000, output_price := 0, is_active := true } ]

/-- C4 counterexample: the alternatives `x` (similarity 0.2) and `y`
(similarity 0.9) produce equal `potential_savings` of 29/1000, but the
output keeps generation order and lists the *lower*-similarity `x` first,
refuting "ties broken by higher similarity_score". -/
theorem C4_tie_break_counterexample :
    (analyzeModelUsage [("m", c4xMM)] c4xAlts c4xPrices).map
        (fun r => (r.recommended_model, r.similarity_score, r.potential_savings))
      = [("x", 1 / 5, 29 / 1000), ("y", 9 / 10, 29 / 1000)] := by
  simp [analyzeModelUsage, goModels, emitAlts, recommendedAlts, activePrices,
    priceLookup, find?_cons_eq, pairSavings, sortBySavingsDesc, sortLeB, insertLeB,
    mkRec, c4xMM, c4xAlts, c4xPrices]
  norm_num [sortLeB, insertLeB, decide_eq_true_eq, List.map_cons, List.map_nil]

theorem emitAlts_nil_of_unpriced (prices : List PriceRow) (m : String)
    (mm : ModelMetrics) (l : List AltRow)
    (h : ∀ a ∈ l, (priceLookup prices a.alternative_model).isSome = false) :
    emitAlts prices m mm l = .ok [] := by
  induction l with
  | nil => rw [emitAlts]
  | cons alt rest ih =>
    rw [emitAlts, if_neg (by simp [h alt (List.mem_cons_self _ _)])]
    exact ih fun a ha => h a (List.mem_cons_of_mem _ ha)

theorem goModels_no_alts (prices : List PriceRow)
    (metrics : List (String × ModelMetrics)) :
    goModels [] prices metrics = .ok [] := by
  induction metrics with
  | nil => rw [goModels]
  | cons p rest ih =>
    obtain ⟨m, mm⟩ := p
    rw [goModels, List.filter_nil, emitAlts, ih]
    rfl

theorem goModels_no_prices (alts : List AltRow)
    (metrics : List (String × ModelMetrics)) :
    goModels alts [] metrics = .ok [] := by
  induction metrics with
  | nil => rw [goModels]
  | cons p rest ih =>
    obtain ⟨m, mm⟩ := p
    rw [goModels, emitAlts_nil_of_unpriced _ _ _ _ (by
      intro a ha
      simp [priceLookup]), ih]
    rfl

theorem goModels_drop_unpriced (alts : List AltRow) (prices : List PriceRow)
    (m : String) (mm : ModelMetrics)
    (h : ∀ a ∈ alts.filter (fun a => a.source_model == m),
      (priceLookup prices a.alternative_model).isSome = false) :
    ∀ pre post, goModels alts prices (pre ++ (m, mm) :: post)
      = goModels alts prices (pre ++ post) := by
  intro pre
  induction pre with
  | nil =>
    intro post
    rw [List.nil_append, List.nil_append, goModels,
      emitAlts_nil_of_unpriced _ _ _ _ h]
    cases hpost : goModels alts prices post with
    | error e => rfl
    | ok more => rfl
  | cons p pre ih =>
    intro post
    obtain ⟨m', mm'⟩ := p
    rw [List.cons_append, List.cons_append, goModels, goModels, ih post]

/-- C5 (amended): a model with no recommended alternatives, or none of
whose recommended alternatives carries an active price, silently
contributes zero recommendations and the other models' recommendations are
unaffected; with no alternative reference data at all, or no active
pricing data at all, the result is the empty list.  (The claim's stated
isolation fails in one case: a source model *without* an active price
whose recommended alternative *is* actively priced makes the whole call
return `[]` — see the counterexample.  The operation still never raises
past its boundary.) -/
theorem C5_missing_reference_data
    (altTable : List AltRow) (priceTable : List PriceRow) :
    (∀ metrics, analyzeModelUsage metrics [] priceTable = []) ∧
    (∀ metrics, analyzeModelUsage metrics altTable [] = []) ∧
    (∀ (m : String) (mm : ModelMetrics),
      (∀ a ∈ (recommendedAlts altTable).filter (fun a => a.source_model == m),
        (priceLookup (activePrices priceTable) a.alternative_model).isSome = false) →
      ∀ pre post, analyzeModelUsage (pre ++ (m, mm) :: post) altTable priceTable
        = analyzeModelUsage (pre ++ post) altTable priceTable) := by
  refine ⟨?_, ?_, ?_⟩
  · intro metrics
    rw [analyzeModelUsage]
    rw [show recommendedAlts [] = [] from rfl, goModels_no_alts]
    rfl
  · intro metrics
    rw [analyzeModelUsage]
    rw [show activePrices [] = [] from rfl, goModels_no_prices]
    rfl
  · intro m mm h pre post
    rw [analyzeModelUsage, analyzeModelUsage, goModels_drop_unpriced _ _ m mm h]

def c5xMMA : ModelMetrics :=
  { total_spend := 1 / 100, total_requests := 1, total_tokens := 1000
    prompt_tokens := 1000, completion_tokens := 0 }

def c5xMMB : ModelMetrics :=
  { total_spend := 1, total_requests := 2, total_tokens := 500
    prompt_tokens := 300, completion_tokens := 200 }

def c5xAlts : List AltRow :=
  [ { source_model := "a", alternative_model := "a2"
      similarity_score := 4 / 5, is_recommended := true },
    { source_model := "b", alternative_model := "b2"
      similarity_score := 4 / 5, is_recommended := true } ]

def c5xPrices : List PriceRow :=
  [ { model := "a", input_price := 3 / 100, output_price := 0, is_active := true },
    { model := "a2", input_price := 1 / 1000, output_price := 0, is_active := true },
    { model := "b2", input_price := 1 / 1000, output_price := 0, is_active := true } ]

/-- C5 counterexample: model `a` alone yields one recommendation, but in a
metrics map that also contains `b` (which has a priced recommended
alternative `b2` yet no active price of its own) the `KeyError` on
`price_lookup['b']` erases `a`'s recommendation too: the call returns `[]`
instead of still producing the other model's recommendations. -/
theorem C5_missing_price_counterexample :
    analyzeModelUsage [("a", c5xMMA), ("b", c5xMMB)] c5xAlts c5xPrices = [] ∧
    (analyzeModelUsage [("a", c5xMMA)] c5xAlts c5xPrices).length = 1 := by
  constructor
  · simp [analyzeModelUsage, goModels, emitAlts, recommendedAlts, activePrices,
      priceLookup, find?_cons_eq, pairSavings, c5xMMA, c5xMMB, c5xAlts,
      c5xPrices]
  · simp [analyzeModelUsage, goModels, emitAlts, recommendedAlts, activePrices,
      priceLookup, find?_cons_eq, pairSavings, sortBySavingsDesc, sortLeB, insertLeB,
      mkRec, c5xMMA, c5xAlts, c5xPrices]
    norm_num [sortLeB, insertLeB, decide_eq_true_eq, List.length_cons, List.length_nil]

def c5wMM : ModelMetrics :=
  { total_spend := 1, total_requests := 1, total_tokens := 10
    prompt_tokens := 10, completion_tokens := 0 }

/-- C5 witness: dropping the model `"lonely"` — whose only recommended
alternative has no active price — from a one-model metrics map leaves the
result unchanged, and the no-reference-data clauses hold concretely. -/
theorem C5_missing_reference_data_witness :
    (∀ a ∈ (recommendedAlts c5xAlts).filter (fun a => a.source_model == "lonely"),
      (priceLookup (activePrices c5xPrices) a.alternative_model).isSome = false) ∧
    (analyzeModelUsage [("lonely", c5wMM)] c5xAlts c5xPrices
      = analyzeModelUsage [] c5xAlts c5xPrices) ∧
    analyzeModelUsage [("lonely", c5wMM)] [] c5xPrices = [] ∧
    analyzeModelUsage [("lonely", c5wMM)] c5xAlts [] = [] :=
  ⟨by simp [recommendedAlts, c5xAlts],
    (C5_missing_reference_data c5xAlts c5xPrices).2.2 "lonely" c5wMM
      (by simp [recommendedAlts, c5xAlts]) [] [],
    (C5_missing_reference_data c5xAlts c5xPrices).1 [("lonely", c5wMM)],
    (C5_missing_reference_data c5xAlts c5xPrices).2.1 [("lonely", c5wMM)]⟩

/-! ### Filter normalizer: granularity parsing

Embedding of app.py lines 252-257 in `parse_filters`:
`granularity = request.args.get('granularity', 'month').lower()` followed
by `TimeGranularity(granularity)` whose `ValueError` handler substitutes
`TimeGranularity.MONTH`.  `.lower()` is modelled over the character list
(ASCII behaviour, which is all the enum values exercise). -/

inductive TimeGranularity
  | hour
  | day
  | week
  | month
  | year
deriving DecidableEq, Repr

def strToLower (s : String) : String := String.mk (s.data.map Char.toLower)

/-- The `TimeGranularity(value)` enum constructor; `none` models the
`ValueError` it raises on an unknown value. -/
def timeGranularityOfString (s : String) : Option TimeGranularity :=
  if s == "hour" then some .hour
  else if s == "day" then some .day
  else if s == "week" then some .week
  else if s == "month" then some .month
  else if s == "year" then some .year
  else none

/-- Granularity normalization: absent parameter defaults to `'month'`;
unknown values silently fall back to `MONTH` via the `except ValueError`
clause. -/
def parseGranularity (raw : Option String) : TimeGranularity :=
  optElim (timeGranularityOfString (strToLower (raw.getD "month"))) .month (fun g => g)

/-- C7 (amended): when the request omits `granularity` the normalizer uses
`month` (not `day`), a known value parses to its granularity
case-insensitively, and an unknown value silently normalizes to `month` —
filter parsing never fails on the granularity field. -/
theorem C7_granularity_normalization :
    parseGranularity none = TimeGranularity.month ∧
    (∀ s g, timeGranularityOfString (strToLower s) = some g →
      parseGranularity (some s) = g) ∧
    (∀ s, timeGranularityOfString (strToLower s) = none →
      parseGranularity (some s) = TimeGranularity.month) := by
  refine ⟨rfl, ?_, ?_⟩
  · intro s g h
    rw [parseGranularity, Option.getD_some, h, optElim_some]
  · intro s h
    rw [parseGranularity, Option.getD_some, h, optElim_none]

/-- C7 witness: `"HOUR"` parses to `hour`, `"banana"` falls back to
`month`. -/
theorem C7_granularity_normalization_witness :
    (timeGranularityOfString (strToLower "HOUR") = some TimeGranularity.hour ∧
      parseGranularity (some "HOUR") = TimeGranularity.hour) ∧
    (timeGranularityOfString (strToLower "banana") = none ∧
      parseGranularity (some "banana") = TimeGranularity.month) :=
  ⟨⟨by decide, C7_granularity_normalization.2.1 "HOUR" TimeGranularity.hour (by decide)⟩,
    ⟨by decide, C7_granularity_normalization.2.2 "banana" (by decide)⟩⟩

/-- C7 counterexample: the claim says the default is `day` and unknown
values raise `InvalidFilterError`; in fact the omitted parameter yields
`month`, and the unknown value `"invalid"` (the one the repo's own
endpoint test sends) also silently yields `month` — no error is ever
raised for the granularity field. -/
theorem C7_granularity_counterexample :
    parseGranularity none = TimeGranularity.month ∧
    TimeGranularity.month ≠ TimeGranularity.day ∧
    parseGranularity (some "invalid") = TimeGranularity.month := by
  refine ⟨rfl, by decide, by decide⟩

/-! ### Event query gateway pagination

Embedding of `query_token_logs` (src/backend/app.py).  The store's matching
rows (after the date and dimension filters) are the list `rows`, in the
store's return order; `query.range(a, b)` returns the slice `rows[a..b]`
and `response.count` is the exact total match count. -/

/-- One page: `query.range(start, start + page_size - 1)` with
`page_size = 1000`. -/
def pageSlice (rows : List α) (start : ℕ) : List α :=
  (rows.drop start).take 1000

/-- The pagination loop body over the remaining page starts: an empty page
breaks immediately; otherwise the page is appended, `total_count` is
updated to the store's count, and the loop breaks once
`len(all_data) >= total_count`. -/
def queryPages (rows : List α) : List ℕ → List α → ℕ → List α × ℕ
  | [], acc, cnt => (acc, cnt)
  | s :: rest, acc, cnt =>
    let page := pageSlice rows s
    if page.isEmpty then (acc, cnt)
    else
      if rows.length ≤ (acc ++ page).length then (acc ++ page, rows.length)
      else queryPages rows rest (acc ++ page) rows.length

/-- `query_token_logs`: page starts `range(0, 10000, 1000)`, empty
accumulator, `total_count = 0` until a page arrives. -/
def queryTokenLogs (rows : List α) : List α × ℕ :=
  queryPages rows ((List.range' 0 10).map (fun k => k * 1000)) [] 0

theorem pageSlice_isEmpty (rows : List α) (s : ℕ) :
    (pageSlice rows s).isEmpty = true ↔ rows.length ≤ s := by
  rw [pageSlice, List.isEmpty_iff]
  constructor
  · intro h
    by_contra hlt
    push_neg at hlt
    have hd : rows.drop s ≠ [] := by
      intro hnil
      rw [List.drop_eq_nil_iff] at hnil
      omega
    cases hdrop : rows.drop s with
    | nil => exact hd hdrop
    | cons x xs =>
      rw [hdrop] at h
      simp [List.take_succ_cons] at h
  · intro h
    rw [List.drop_eq_nil_iff.mpr h, List.take_nil]

theorem queryPages_spec (rows : List α) :
    ∀ (n k : ℕ), k + n = 10 → ∀ cnt,
      (queryPages rows ((List.range' k n).map (fun j => j * 1000))
        (rows.take (k * 1000)) cnt).1 = rows.take 10000 := by
  intro n
  induction n with
  | zero =>
    intro k hk cnt
    have hk10 : k = 10 := by omega
    subst hk10
    rw [List.range'_zero, List.map_nil, queryPages]
  | succ n ih =>
    intro k hk cnt
    rw [List.range'_succ, List.map_cons, queryPages]
    by_cases hpage : (pageSlice rows (k * 1000)).isEmpty = true
    · rw [if_pos hpage]
      rw [pageSlice_isEmpty] at hpage
      rw [List.take_of_length_le hpage, List.take_of_length_le (by omega)]
    · rw [if_neg hpage]
      have hacc : rows.take (k * 1000) ++ pageSlice rows (k * 1000)
          = rows.take ((k + 1) * 1000) := by
        rw [pageSlice, ← List.take_add]
        ring_nf
      by_cases hlen : rows.length ≤ (rows.take (k * 1000) ++ pageSlice rows (k * 1000)).length
      · rw [if_pos hlen]
        rw [hacc] at hlen ⊢
        rw [List.length_take] at hlen
        have hle : rows.length ≤ (k + 1) * 1000 := by omega
        rw [List.take_of_length_le hle, List.take_of_length_le (by omega)]
      · rw [if_neg hlen]
        rw [hacc]
        exact ih (k + 1) (by omega) rows.length

/-- C10: the token-log query returns at most 10,000 rows — exactly the
first 10,000 matching rows, because pagination walks ten 1,000-row pages
and stops; any rows beyond the cap are invisible to downstream
aggregation. -/
theorem C10_pagination_cap (rows : List α) :
    (queryTokenLogs rows).1 = rows.take 10000 ∧
    (queryTokenLogs rows).1.length ≤ 10000 := by
  have h := queryPages_spec rows 10 0 rfl 0
  rw [Nat.zero_mul, List.take_zero] at h
  rw [queryTokenLogs]
  refine ⟨h, ?_⟩
  rw [h]
  exact List.length_take_le 10000 rows

/-! ### Bucketing engine

Embedding of `get_metrics_trend_internal` (src/backend/app.py): dense
bucket initialization over `[start, end)` followed by event assignment.
Bucket keys are the `strftime`-truncated timestamps; they are modelled as
the truncated `DT` values (the zero-padded key strings of the source order
exactly like `DT.key`).  The `datetime.replace` calls used for the month
and year advance raise `ValueError` when the target date does not exist
(e.g. `Feb 31`, or `Feb 29` of a non-leap year); the `while` loop is given
an explicit step budget that exceeds its iteration count for any range
(every advance moves at least one hour forward), mirroring the Python
loop's termination. -/

structure FilterSet where
  granularity : TimeGranularity
  start : DT
  stop : DT
deriving DecidableEq, Repr

def truncHour (t : DT) : DT := { t with minute := 0, second := 0 }

def truncDay (t : DT) : DT := { t with hour := 0, minute := 0, second := 0 }

/-- Week bucket key: `current - timedelta(days=current.weekday())` printed
with a zeroed time. -/
def truncWeek (t : DT) : DT := truncDay (subDays (pyWeekday t) t)

def truncMonth (t : DT) : DT := { t with day := 1, hour := 0, minute := 0, second := 0 }

def truncYear (t : DT) : DT :=
  { t with month := 1, day := 1, hour := 0, minute := 0, second := 0 }

def bucketKey (g : TimeGranularity) (t : DT) : DT :=
  match g with
  | .hour => truncHour t
  | .day => truncDay t
  | .week => truncWeek t
  | .month => truncMonth t
  | .year => truncYear t

/-- One loop advance.  `none` models the `ValueError` raised by
`current.replace(...)` when the target calendar date does not exist. -/
def advanceGran (g : TimeGranularity) (t : DT) : Option DT :=
  match g with
  | .hour => some (succHour t)
  | .day => some (succDay t)
  | .week => some (addDays 7 t)
  | .month =>
    if t.month == 12 then some { t with year := t.year + 1, month := 1 }
    else if t.day ≤ daysInMonth t.year (t.month + 1) then some { t with month := t.month + 1 }
    else none
  | .year =>
    if t.month == 2 && t.day == 29 && !isLeap (t.year + 1) then none
    else some { t with year := t.year + 1 }

inductive TrendErr
  | valueError
  | budget
deriving DecidableEq, Repr

/-- Generic case analysis on `Except`, as a function. -/
def exceptElim (e : Except ε α) (h : ε → β) (f : α → β) : β :=
  match e with
  | .error u => h u
  | .ok a => f a

@[simp] theorem exceptElim_error (u : ε) (h : ε → β) (f : α → β) :
    exceptElim (.error u) h f = h u := rfl

@[simp] theorem exceptElim_ok (a : α) (h : ε → β) (f : α → β) :
    exceptElim (.ok a) h f = f a := rfl

/-- The `while current < end` bucket-creation loop: record the current
bucket key, then advance.  An advance fault aborts the function (the
caught `ValueError`); the budget case never occurs within the stated
budget. -/
def bucketLoop (g : TimeGranularity) (stop : DT) :
    ℕ → DT → List DT → Except TrendErr (List DT)
  | 0, _, _ => .error .budget
  | fuel + 1, current, acc =>
    if current.key < stop.key then
      optElim (advanceGran g current) (.error .valueError) fun next =>
        bucketLoop g stop fuel next (acc ++ [bucketKey g current])
    else .ok acc

/-- Step budget: more hours than fit between year 0 and `stop.year + 1`. -/
def trendFuel (stop : DT) : ℕ := (stop.year + 2) * 8800

def initBuckets (fs : FilterSet) : Except TrendErr (List DT) :=
  bucketLoop fs.granularity fs.stop (trendFuel fs.stop) fs.start []

structure TrendBucket where
  total_spend : ℚ
  total_requests : ℕ
  total_tokens : ℕ
deriving DecidableEq, Repr

def zeroBucket : TrendBucket := { total_spend := 0, total_requests := 0, total_tokens := 0 }

/-- `time_buckets[bucket_key] = {...zeros...}` over all generated keys:
a Python dict keyed by the bucket key, in first-insertion order. -/
def initStore (keys : List DT) : List (DT × TrendBucket) :=
  keys.foldl
    (fun st k => if st.any (fun p => p.1 == k) then st else st ++ [(k, zeroBucket)]) []

/-- A store row: `timestamp, total_cost, total_tokens` as returned by the
store, with SQL `NULL` as `none` (the code reads `row['total_cost'] or 0`). -/
structure TrendRow where
  timestamp : DT
  total_cost : Option ℚ
  total_tokens : Option ℕ
deriving DecidableEq, Repr

def bumpBucket (r : TrendRow) (b : TrendBucket) : TrendBucket :=
  { total_spend := b.total_spend + r.total_cost.getD 0
    total_requests := b.total_requests + 1
    total_tokens := b.total_tokens + r.total_tokens.getD 0 }

/-- `if bucket_key in time_buckets: ... update ...` — an event whose key is
not a generated bucket is dropped (with a printed warning). -/
def updateFirst (k : DT) (r : TrendRow) : List (DT × TrendBucket) → List (DT × TrendBucket)
  | [] => []
  | p :: ps => if p.1 == k then (p.1, bumpBucket r p.2) :: ps else p :: updateFirst k r ps

def assignRow (g : TimeGranularity) (st : List (DT × TrendBucket)) (r : TrendRow) :
    List (DT × TrendBucket) :=
  updateFirst (bucketKey g r.timestamp) r st

def assignAll (g : TimeGranularity) (st : List (DT × TrendBucket))
    (rows : List TrendRow) : List (DT × TrendBucket) :=
  rows.foldl (assignRow g) st

structure TrendResult where
  metrics : List (DT × TrendBucket)
  isError : Bool
deriving DecidableEq, Repr

/-- `get_metrics_trend_internal` on the rows the store returns for the
filter: bucket initialization, assignment, and the
`sorted(time_buckets.items())` ascending output; the function-level
`except` returns an error payload with empty metrics. -/
def metricsTrend (fs : FilterSet) (rows : List TrendRow) : TrendResult :=
  exceptElim (initBuckets fs) (fun _ => { metrics := [], isError := true }) fun keys =>
    { metrics := sortLeB (fun p q => decide (p.1.key ≤ q.1.key))
        (assignAll fs.granularity (initStore keys) rows)
      isError := false }

def sumSpend (st : List (DT × TrendBucket)) : ℚ :=
  (st.map (fun p => p.2.total_spend)).sum

theorem updateFirst_keys (k : DT) (r : TrendRow) (st : List (DT × TrendBucket)) :
    (updateFirst k r st).map Prod.fst = st.map Prod.fst := by
  induction st with
  | nil => rfl
  | cons p ps ih =>
    rw [updateFirst]
    by_cases h : (p.1 == k) = true
    · rw [if_pos h, List.map_cons, List.map_cons]
    · rw [if_neg h, List.map_cons, List.map_cons, ih]

theorem sumSpend_updateFirst (k : DT) (r : TrendRow) (st : List (DT × TrendBucket)) :
    sumSpend (updateFirst k r st)
      = sumSpend st + (if k ∈ st.map Prod.fst then r.total_cost.getD 0 else 0) := by
  induction st with
  | nil => simp [updateFirst, sumSpend]
  | cons p ps ih =>
    rw [updateFirst]
    by_cases h : (p.1 == k) = true
    · rw [if_pos h]
      have hk : k ∈ (p :: ps).map Prod.fst := by
        rw [List.map_cons, List.mem_cons]
        exact Or.inl (beq_iff_eq.mp h).symm
      rw [if_pos hk]
      simp only [sumSpend, List.map_cons, List.sum_cons, bumpBucket]
      ring
    · rw [if_neg h]
      have hne : p.1 ≠ k := by simpa using h
      simp only [sumSpend, List.map_cons, List.sum_cons] at ih ⊢
      rw [ih]
      by_cases hk : k ∈ ps.map Prod.fst
      · rw [if_pos hk, if_pos (List.mem_cons.mpr (Or.inr hk))]
        ring
      · rw [if_neg hk, if_neg (by
          intro hck
          rcases List.mem_cons.mp hck with h1 | h2
          · exact hne h1.symm
          · exact hk h2)]
        ring

theorem sumSpend_assignAll (g : TimeGranularity) (rows : List TrendRow) :
    ∀ st, sumSpend (assignAll g st rows)
      = sumSpend st
        + ((rows.filter (fun r => decide (bucketKey g r.timestamp ∈ st.map Prod.fst))).map
            (fun r => r.total_cost.getD 0)).sum := by
  induction rows with
  | nil => intro st; simp [assignAll]
  | cons r rows ih =>
    intro st
    have hstep : assignAll g st (r :: rows) = assignAll g (assignRow g st r) rows := rfl
    rw [hstep, ih (assignRow g st r), assignRow, updateFirst_keys, sumSpend_updateFirst]
    by_cases hk : bucketKey g r.timestamp ∈ st.map Prod.fst
    · rw [if_pos hk, List.filter_cons_of_pos (by simpa using hk), List.map_cons,
        List.sum_cons]
      ring
    · rw [if_neg hk, List.filter_cons_of_neg (by simpa using hk)]
      ring

theorem initStore_spend (keys : List DT) : sumSpend (initStore keys) = 0 := by
  suffices h : ∀ acc, sumSpend (keys.foldl
      (fun st k => if st.any (fun p => p.1 == k) then st else st ++ [(k, zeroBucket)]) acc)
      = sumSpend acc by
    simpa [initStore, sumSpend] using h []
  induction keys with
  | nil => intro acc; rfl
  | cons k keys ih =>
    intro acc
    rw [List.foldl_cons, ih]
    by_cases h : (acc.any (fun p => p.1 == k)) = true
    · rw [if_pos h]
    · rw [if_neg h]
      simp [sumSpend, zeroBucket]

theorem initStore_keys_mem (keys : List DT) (x : DT) :
    x ∈ (initStore keys).map Prod.fst ↔ x ∈ keys := by
  suffices h : ∀ acc : List (DT × TrendBucket), (x ∈ (keys.foldl
      (fun (st : List (DT × TrendBucket)) k =>
        if st.any (fun p => p.1 == k) then st else st ++ [(k, zeroBucket)])
        acc).map Prod.fst) ↔ x ∈ acc.map Prod.fst ∨ x ∈ keys by
    simpa [initStore] using h []
  induction keys with
  | nil => intro acc; simp
  | cons k keys ih =>
    intro acc
    rw [List.foldl_cons, ih]
    by_cases h : (acc.any (fun p => p.1 == k)) = true
    · rw [if_pos h]
      have hk : k ∈ acc.map Prod.fst := by
        rw [List.any_eq_true] at h
        obtain ⟨p, hp, hpk⟩ := h
        exact List.mem_map.mpr ⟨p, hp, beq_iff_eq.mp hpk⟩
      constructor
      · rintro (ha | hkeys)
        · exact Or.inl ha
        · exact Or.inr (List.mem_cons_of_mem _ hkeys)
      · rintro (ha | hck)
        · exact Or.inl ha
        · rcases List.mem_cons.mp hck with rfl | hkeys
          · exact Or.inl hk
          · exact Or.inr hkeys
    · rw [if_neg h]
      rw [List.map_append, List.mem_append]
      constructor
      · rintro ((ha | hsing) | hkeys)
        · exact Or.inl ha
        · exact Or.inr (List.mem_cons.mpr (Or.inl (by simpa using hsing)))
        · exact Or.inr (List.mem_cons_of_mem _ hkeys)
      · rintro (ha | hck)
        · exact Or.inl (Or.inl ha)
        · rcases List.mem_cons.mp hck with rfl | hkeys
          · exact Or.inl (Or.inr (by simp))
          · exact Or.inr hkeys

theorem sumSpend_sortLeB (le : (DT × TrendBucket) → (DT × TrendBucket) → Bool)
    (st : List (DT × TrendBucket)) : sumSpend (sortLeB le st) = sumSpend st :=
  List.Perm.sum_eq ((perm_sortLeB le st).map (fun p => p.2.total_spend))

/-- C2 (amended): whenever bucket initialization succeeds with keys
`keys`, the sum of `total_spend` over the produced buckets equals the sum
of `total_cost` over exactly those filtered events whose truncated bucket
key is among the generated buckets — no event is double-counted, and the
events the trend drops are precisely those whose key falls outside the
generated bucket set (possible when the filter start is not aligned to the
granularity unit, see the counterexample). -/
theorem C2_trend_conservation (fs : FilterSet) (rows : List TrendRow)
    (keys : List DT) (hinit : initBuckets fs = .ok keys) :
    sumSpend (metricsTrend fs rows).metrics
      = ((rows.filter (fun r => decide (bucketKey fs.granularity r.timestamp ∈ keys))).map
          (fun r => r.total_cost.getD 0)).sum := by
  rw [metricsTrend, hinit, exceptElim_ok, sumSpend_sortLeB, sumSpend_assignAll,
    initStore_spend, zero_add]
  have hflt : rows.filter
        (fun r => decide (bucketKey fs.granularity r.timestamp ∈ (initStore keys).map Prod.fst))
      = rows.filter (fun r => decide (bucketKey fs.granularity r.timestamp ∈ keys)) := by
    apply List.filter_congr
    intro r _
    rw [decide_eq_decide]
    exact initStore_keys_mem keys (bucketKey fs.granularity r.timestamp)
  rw [hflt]

theorem bucketLoop_stop (g : TimeGranularity) (stop : DT) (fuel : ℕ) (current : DT)
    (acc : List DT) (h : ¬ current.key < stop.key) :
    bucketLoop g stop (fuel + 1) current acc = .ok acc := by
  rw [bucketLoop, if_neg h]

theorem bucketLoop_step (g : TimeGranularity) (stop : DT) (fuel : ℕ)
    (current next : DT) (acc : List DT) (h : current.key < stop.key)
    (hadv : advanceGran g current = some next) :
    bucketLoop g stop (fuel + 1) current acc
      = bucketLoop g stop fuel next (acc ++ [bucketKey g current]) := by
  rw [bucketLoop, if_pos h, hadv, optElim_some]

theorem bucketLoop_fault (g : TimeGranularity) (stop : DT) (fuel : ℕ) (current : DT)
    (acc : List DT) (h : current.key < stop.key)
    (hadv : advanceGran g current = none) :
    bucketLoop g stop (fuel + 1) current acc = .error .valueError := by
  rw [bucketLoop, if_pos h, hadv, optElim_none]

def c2wFS : FilterSet :=
  { granularity := .day
    start := { year := 2024, month := 1, day := 1, hour := 0, minute := 0, second := 0 }
    stop := { year := 2024, month := 1, day := 3, hour := 0, minute := 0, second := 0 } }

def c2wRows : List TrendRow :=
  [ { timestamp := { year := 2024, month := 1, day := 2, hour := 10, minute := 30, second := 0 }
      total_cost := some 5, total_tokens := some 100 } ]

def c2wKeys : List DT :=
  [ { year := 2024, month := 1, day := 1, hour := 0, minute := 0, second := 0 },
    { year := 2024, month := 1, day := 2, hour := 0, minute := 0, second := 0 } ]

theorem c2w_init : initBuckets c2wFS = .ok c2wKeys := by
  rw [initBuckets, show trendFuel c2wFS.stop = 17828799 + 1 from rfl]
  rw [bucketLoop_step _ _ _ _
    { year := 2024, month := 1, day := 2, hour := 0, minute := 0, second := 0 } _
    (by decide) (by decide)]
  rw [show (17828799 : ℕ) = 17828798 + 1 from rfl]
  rw [bucketLoop_step _ _ _ _
    { year := 2024, month := 1, day := 3, hour := 0, minute := 0, second := 0 } _
    (by decide) (by decide)]
  rw [show (17828798 : ℕ) = 17828797 + 1 from rfl]
  rw [bucketLoop_stop _ _ _ _ _ (by decide)]
  rfl

/-- C2 witness: a two-day day-granularity window with one in-range event;
initialization succeeds with the two expected buckets and conservation
holds. -/
theorem C2_trend_conservation_witness :
    initBuckets c2wFS = .ok c2wKeys ∧
    sumSpend (metricsTrend c2wFS c2wRows).metrics
      = ((c2wRows.filter
            (fun r => decide (bucketKey c2wFS.granularity r.timestamp ∈ c2wKeys))).map
          (fun r => r.total_cost.getD 0)).sum :=
  ⟨c2w_init, C2_trend_conservation c2wFS c2wRows c2wKeys c2w_init⟩

def c2xFS : FilterSet :=
  { granularity := .day
    start := { year := 2024, month := 1, day := 1, hour := 23, minute := 0, second := 0 }
    stop := { year := 2024, month := 1, day := 2, hour := 1, minute := 0, second := 0 } }

def c2xRow : TrendRow :=
  { timestamp := { year := 2024, month := 1, day := 2, hour := 0, minute := 30, second := 0 }
    total_cost := some 5, total_tokens := some 10 }

/-- C2 counterexample: the filter runs from Jan 1 23:00 to Jan 2 01:00 at
day granularity, so only the Jan 1 bucket is generated; the event at
Jan 2 00:30 lies in `[start, end)` but truncates to Jan 2, is dropped with
a warning, and the bucket totals sum to 0 while the filtered events' cost
sums to 5 — conservation fails with no error reported. -/
theorem c2x_init : initBuckets c2xFS
    = .ok [{ year := 2024, month := 1, day := 1, hour := 0, minute := 0, second := 0 }] := by
  rw [initBuckets, show trendFuel c2xFS.stop = 17828799 + 1 from rfl]
  rw [bucketLoop_step _ _ _ _
    { year := 2024, month := 1, day := 2, hour := 23, minute := 0, second := 0 } _
    (by decide) (by decide)]
  rw [show (17828799 : ℕ) = 17828798 + 1 from rfl]
  rw [bucketLoop_stop _ _ _ _ _ (by decide)]
  rfl

theorem C2_trend_conservation_counterexample :
    c2xFS.start.key ≤ c2xRow.timestamp.key ∧
    c2xRow.timestamp.key < c2xFS.stop.key ∧
    sumSpend (metricsTrend c2xFS [c2xRow]).metrics = 0 ∧
    (([c2xRow] : List TrendRow).map (fun r => r.total_cost.getD 0)).sum = 5 ∧
    (metricsTrend c2xFS [c2xRow]).isError = false := by
  refine ⟨by decide, by decide, ?_, by simp [c2xRow], ?_⟩
  · rw [metricsTrend, c2x_init, exceptElim_ok]
    simp [initStore, assignAll, assignRow, updateFirst, bucketKey, truncDay, c2xRow,
      sortLeB, insertLeB, sumSpend, zeroBucket]
  · rw [metricsTrend, c2x_init, exceptElim_ok]

def c3FS : FilterSet :=
  { granularity := .month
    start := { year := 2023, month := 1, day := 31, hour := 0, minute := 0, second := 0 }
    stop := { year := 2023, month := 3, day := 1, hour := 0, minute := 0, second := 0 } }

/-- C3: evaluation at the failing input.  A month-granularity filter
starting Jan 31 makes the bucket loop call
`current.replace(month=2)` on a day-31 date; `datetime.replace` raises
`ValueError` ("day is out of range for month"), so bucket initialization
aborts and `get_metrics_trend_internal` returns its caught-error payload
with an empty metrics list instead of the dense bucket list the claim
requires for month-end start dates. -/
theorem C3_month_end_bucket_crash :
    initBuckets c3FS = .error TrendErr.valueError ∧
    metricsTrend c3FS [] = { metrics := [], isError := true } := by
  have hinit : initBuckets c3FS = .error TrendErr.valueError := by
    rw [initBuckets, show trendFuel c3FS.stop = 17819999 + 1 from rfl]
    rw [bucketLoop_fault _ _ _ _ _ (by decide) (by decide)]
  exact ⟨hinit, by rw [metricsTrend, hinit, exceptElim_error]⟩

/-! ### Timeseries engine

Embedding of `get_timeseries_data` (src/backend/db/supabase_client.py) and
its helpers `get_model_pricing` / `get_model_alternatives`.  A stored
timestamp is either a parseable ISO instant (`TS.iso`) or a string that
`datetime.fromisoformat` rejects (`TS.bad`); numeric row fields are JSON
values (`null`, number, or numeric string) as the code's robust-conversion
block expects.  Number→string rendering (`%-d`, `%Y`, …) is implemented
over the character list for values below 10000, which covers every value
the labels can carry.  One corner is simplified: when a row's numeric
conversion fails, the code falls through with a stale/undefined local
`cost`, and this model skips that row's alternative-cost update as well;
no claim touches that corner and every concrete input here is numeric. -/

def digitChar (d : ℕ) : Char := Char.ofNat (48 + d)

def natToStr (n : ℕ) : String :=
  if n < 10 then String.mk [digitChar n]
  else if n < 100 then String.mk [digitChar (n / 10), digitChar (n % 10)]
  else if n < 1000 then
    String.mk [digitChar (n / 100), digitChar (n / 10 % 10), digitChar (n % 10)]
  else
    String.mk [digitChar (n / 1000), digitChar (n / 100 % 10), digitChar (n / 10 % 10),
      digitChar (n % 10)]

def pad2 (n : ℕ) : String := if n < 10 then "0" ++ natToStr n else natToStr n

def pad4 (n : ℕ) : String :=
  if n < 10 then "000" ++ natToStr n
  else if n < 100 then "00" ++ natToStr n
  else if n < 1000 then "0" ++ natToStr n
  else natToStr n

/-- Python string comparison: code-point lexicographic. -/
def charListLeB : List Char → List Char → Bool
  | [], _ => true
  | _ :: _, [] => false
  | a :: as, b :: bs =>
    if a.val < b.val then true else if b.val < a.val then false else charListLeB as bs

def strLeB (a b : String) : Bool := charListLeB a.data b.data

/-- `str.split()`: split on whitespace runs, no empty tokens. -/
def splitChars : List Char → List Char → List (List Char)
  | [], cur => if cur.isEmpty then [] else [cur.reverse]
  | c :: cs, cur =>
    if c == ' ' then
      if cur.isEmpty then splitChars cs [] else cur.reverse :: splitChars cs []
    else splitChars cs (c :: cur)

def splitWS (s : String) : List String := (splitChars s.data []).map String.mk

def isPrefixList : List Char → List Char → Bool
  | [], _ => true
  | _ :: _, [] => false
  | a :: as, b :: bs => a == b && isPrefixList as bs

/-- `sub in s` for strings. -/
def containsChars (sub : List Char) : List Char → Bool
  | [] => sub.isEmpty
  | c :: cs => isPrefixList sub (c :: cs) || containsChars sub cs

def containsSub (s sub : String) : Bool := containsChars sub.data s.data

def digitVal (c : Char) : Option ℕ :=
  if 48 ≤ c.toNat && c.toNat ≤ 57 then some (c.toNat - 48) else none

def digitsValAux : List Char → ℕ → Option ℕ
  | [], acc => some acc
  | c :: cs, acc => optElim (digitVal c) none fun d => digitsValAux cs (acc * 10 + d)

def digitsVal : List Char → Option ℕ
  | [] => none
  | c :: cs => digitsValAux (c :: cs) 0

/-- Python `int(s)` on a plain decimal literal with optional sign;
any other string raises `ValueError` (`none`). -/
def strToInt (s : String) : Option ℤ :=
  match s.data with
  | '-' :: rest => (digitsVal rest).map (fun n => -(n : ℤ))
  | cs => (digitsVal cs).map (fun n => (n : ℤ))

def splitOnChar (sep : Char) : List Char → List Char → List (List Char)
  | [], cur => [cur.reverse]
  | c :: cs, cur =>
    if c == sep then cur.reverse :: splitOnChar sep cs []
    else splitOnChar sep cs (c :: cur)

/-- Python `float(s)` on a plain decimal literal (`d`, `d.d`) with optional
sign; other strings raise (`none`). -/
def strToFloat (s : String) : Option ℚ :=
  let go : List Char → Option ℚ := fun cs =>
    match splitOnChar '.' cs [] with
    | [a] => (digitsVal a).map (fun n => (n : ℚ))
    | [a, b] =>
      optElim (digitsVal a) none fun x =>
        optElim (digitsVal b) none fun y =>
          some ((x : ℚ) + (y : ℚ) / (10 : ℚ) ^ b.length)
    | _ => none
  match s.data with
  | '-' :: rest => (go rest).map (fun q => -q)
  | cs => go cs

/-- A JSON field value as the row dicts carry them. -/
inductive JVal
  | null
  | num (q : ℚ)
  | str (s : String)
deriving DecidableEq, Repr

/-- The robust-conversion block: `None` → 0, string → `int(...)`
(raising on bad strings), number kept. -/
def intConv : JVal → Option ℚ
  | .null => some 0
  | .num q => some q
  | .str s => (strToInt s).map (fun z => (z : ℚ))

def floatConv : JVal → Option ℚ
  | .null => some 0
  | .num q => some q
  | .str s => strToFloat s

/-- Raw numeric access (the alternative-cost block uses the row values
without conversion; strings and `None` raise `TypeError` there). -/
def numOnly : JVal → Option ℚ
  | .num q => some q
  | _ => none

/-- A stored timestamp: a parseable ISO instant, or a raw string that
`datetime.fromisoformat` rejects. -/
inductive TS
  | iso (dt : DT)
  | bad (s : String)
deriving DecidableEq, Repr

/-- `if not timestamp: continue` — only the empty string is falsy. -/
def tsFalsy : TS → Bool
  | .iso _ => false
  | .bad s => s.isEmpty

def isoDateStr (t : DT) : String := pad4 t.year ++ "-" ++ pad2 t.month ++ "-" ++ pad2 t.day

/-- The raw stored timestamp string, used as the log sort key. -/
def tsRender : TS → String
  | .iso t => isoDateStr t ++ "T" ++ pad2 t.hour ++ ":" ++ pad2 t.minute ++ ":" ++ pad2 t.second
  | .bad s => s

/-- `log_timestamp.startswith(end_date)` for the day view. -/
def tsOnDate (ts : TS) (d : DT) : Bool :=
  match ts with
  | .iso t => t.year == d.year && t.month == d.month && t.day == d.day
  | .bad s => isPrefixList (isoDateStr d).data s.data

structure TSLog where
  timestamp : TS
  model : String
  prompt_tokens : JVal
  completion_tokens : JVal
  total_tokens : JVal
  total_cost : JVal
deriving DecidableEq, Repr

def monthAbbrList : List String :=
  ["Jan", "Feb", "Mar", "Apr", "May", "Jun", "Jul", "Aug", "Sep", "Oct", "Nov", "Dec"]

def monthFullList : List String :=
  ["January", "February", "March", "April", "May", "June", "July", "August",
    "September", "October", "November", "December"]

def weekAbbrList : List String := ["Mon", "Tue", "Wed", "Thu", "Fri", "Sat", "Sun"]

def weekFullList : List String :=
  ["Monday", "Tuesday", "Wednesday", "Thursday", "Friday", "Saturday", "Sunday"]

def monthAbbr (m : ℕ) : String := monthAbbrList.getD (m - 1) "Unk"

def monthFull (m : ℕ) : String := monthFullList.getD (m - 1) "Unk"

def weekdayAbbr (t : DT) : String := weekAbbrList.getD (pyWeekday t) "Unk"

def weekdayFull (t : DT) : String := weekFullList.getD (pyWeekday t) "Unk"

def hour12 (h : ℕ) : ℕ := if h % 12 == 0 then 12 else h % 12

/-- `strftime('%-I %p')`. -/
def hourLabel (t : DT) : String :=
  natToStr (hour12 t.hour) ++ " " ++ (if t.hour < 12 then "AM" else "PM")

/-- `extract_date_key`: the grouping/display key per interval; a timestamp
that fails to parse yields `"Unknown Date"`. -/
def extractDateKey (interval : String) (ts : TS) : String :=
  match ts with
  | .bad _ => "Unknown Date"
  | .iso dt =>
    if interval == "hour" then hourLabel dt
    else if interval == "day" then monthAbbr dt.month ++ " " ++ natToStr dt.day
    else if interval == "week" then weekdayAbbr dt ++ " " ++ natToStr dt.day
    else if interval == "month" then monthAbbr dt.month ++ " " ++ natToStr dt.day
    else isoDateStr dt

/-- `extract_display_date`. -/
def extractDisplayDate (interval : String) (ts : TS) : String :=
  match ts with
  | .bad _ => "Unknown Date"
  | .iso dt =>
    if interval == "hour" then
      monthAbbr dt.month ++ " " ++ natToStr dt.day ++ ", " ++ hourLabel dt
    else if interval == "day" then
      monthAbbr dt.month ++ " " ++ natToStr dt.day ++ ", " ++ pad4 dt.year
    else if interval == "week" then
      weekdayFull dt ++ ", " ++ monthAbbr dt.month ++ " " ++ natToStr dt.day
    else if interval == "month" then
      monthAbbr dt.month ++ " " ++ natToStr dt.day ++ ", " ++ pad4 dt.year
    else isoDateStr dt

structure TSPoint where
  display_key : String
  display_date : String
  value : ℚ
  prompt_tokens : ℚ
  completion_tokens : ℚ
  cost : ℚ
  alternative_cost : ℚ
  savings : ℚ
deriving DecidableEq, Repr

def zeroPoint (k d : String) : TSPoint :=
  { display_key := k, display_date := d, value := 0, prompt_tokens := 0
    completion_tokens := 0, cost := 0, alternative_cost := 0, savings := 0 }

/-- `get_model_pricing`: first active pricing row for the model. -/
def getModelPricing (priceTable : List PriceRow) (m : String) : Option PriceRow :=
  (priceTable.filter (fun r => r.model == m && r.is_active)).head?

/-- `get_model_alternatives`: the model's alternative rows ordered by
similarity descending, each enriched with the source and alternative
pricing; rows whose pricing is incomplete are dropped. -/
def getModelAlternatives (altTable : List AltRow) (priceTable : List PriceRow)
    (m : String) : List (AltRow × PriceRow × PriceRow) :=
  (sortLeB (fun a b => decide (b.similarity_score ≤ a.similarity_score))
      (altTable.filter (fun a => a.source_model == m))).filterMap
    (fun alt =>
      optElim (getModelPricing priceTable m) none fun sp =>
        optElim (getModelPricing priceTable alt.alternative_model) none fun ap =>
          some (alt, sp, ap))

/-- The four conversions of the metric try-block, atomically: any failure
skips the whole update (tokens, cost, prompt, completion). -/
def rowNums (l : TSLog) : Option (ℚ × ℚ × ℚ × ℚ) :=
  optElim (intConv l.total_tokens) none fun t =>
    optElim (floatConv l.total_cost) none fun c =>
      optElim (intConv l.prompt_tokens) none fun p =>
        optElim (intConv l.completion_tokens) none fun q => some (t, c, p, q)

def bumpPoint (metric : String) (t c p q : ℚ) (pt : TSPoint) : TSPoint :=
  { pt with
    value := pt.value + (if metric == "tokens" then t else c),
    prompt_tokens := pt.prompt_tokens + p,
    completion_tokens := pt.completion_tokens + q,
    cost := pt.cost + c }

/-- The alternative-cost block (`metric == 'cost'` only): the first
(highest-similarity) alternative's prices are applied to the raw token
values; a missing model name, no alternatives, or non-numeric raw tokens
leave the point unchanged. -/
def bumpAlt (alts : String → List (AltRow × PriceRow × PriceRow)) (l : TSLog)
    (c : ℚ) (pt : TSPoint) : TSPoint :=
  if l.model == "" then pt
  else
    optElim (alts l.model).head? pt fun a =>
      optElim (numOnly l.prompt_tokens) pt fun p =>
        optElim (numOnly l.completion_tokens) pt fun q =>
          let altCost := p / 1000 * a.2.2.input_price + q / 1000 * a.2.2.output_price
          { pt with
            alternative_cost := pt.alternative_cost + altCost,
            savings := pt.savings + max 0 (c - altCost) }

def anyKey (st : List TSPoint) (k : String) : Bool :=
  st.any (fun p => p.display_key == k)

def updatePoint (k : String) (f : TSPoint → TSPoint) : List TSPoint → List TSPoint
  | [] => []
  | p :: ps => if p.display_key == k then f p :: ps else p :: updatePoint k f ps

/-- One iteration of the grouping loop. -/
def groupStep (interval metric : String)
    (alts : String → List (AltRow × PriceRow × PriceRow))
    (st : List TSPoint) (l : TSLog) : List TSPoint :=
  if tsFalsy l.timestamp then st
  else
    let key := extractDateKey interval l.timestamp
    let st1 :=
      if anyKey st key then st
      else st ++ [zeroPoint key (extractDisplayDate interval l.timestamp)]
    optElim (rowNums l) st1 fun n =>
      let st2 := updatePoint key (bumpPoint metric n.1 n.2.1 n.2.2.1 n.2.2.2) st1
      if metric == "cost" then updatePoint key (bumpAlt alts l n.2.1) st2 else st2

def buildGroups (interval metric : String)
    (alts : String → List (AltRow × PriceRow × PriceRow))
    (logs : List TSLog) : List TSPoint :=
  logs.foldl (groupStep interval metric alts) []

/-- Sun=0 … Sat=6 rank table with `.get(weekday, 7)`. -/
def weekdayRankTab (w : String) : ℤ :=
  if w == "Sun" then 0
  else if w == "Mon" then 1
  else if w == "Tue" then 2
  else if w == "Wed" then 3
  else if w == "Thu" then 4
  else if w == "Fri" then 5
  else if w == "Sat" then 6
  else 7

/-- Hour sort key: `int(label.split()[0])` with AM/PM correction;
`IndexError`/`ValueError` propagate (`Except.error`). -/
def hourSortKey (label : String) : Except Unit ℤ :=
  optElim (splitWS label).head? (.error ()) fun tok =>
    optElim (strToInt tok) (.error ()) fun h =>
      .ok (if containsSub label "PM" && decide (h < 12) then h + 12
        else if containsSub label "AM" && decide (h == 12) then 0
        else h)

/-- Day sort key: `month_index * 100 + day`, where `.index()` raises on an
unknown month abbreviation and `int()` on a bad day token. -/
def daySortKey (label : String) : Except Unit ℤ :=
  optElim (splitWS label).head? (.error ()) fun m =>
    optElim (monthAbbrList.findIdx? (fun x => x == m)) (.error ()) fun mi =>
      optElim ((splitWS label).drop 1).head? (.error ()) fun d =>
        optElim (strToInt d) (.error ()) fun dn => .ok ((mi : ℤ) * 100 + dn)

/-- Week sort key: total — an empty key gets 9999, an unknown weekday
rank 7, an unparseable day number 0. -/
def weekSortKey (label : String) : ℤ :=
  if label.isEmpty then 9999
  else
    let parts := splitWS label
    let wd := parts.headD "Unknown"
    let d : ℤ :=
      optElim (parts.drop 1).head? 0 fun ds => optElim (strToInt ds) 0 fun z => z
    weekdayRankTab wd * 100 + d

def removeCommas (s : String) : String :=
  String.mk (s.data.filter (fun c => c != ','))

/-- Month sort key: `.index()` on the month abbreviation raises on an
unknown month; the inner `int()` failures are caught and fall back to
`month_index * 100`. -/
def monthSortKey (label : String) : Except Unit ℤ :=
  optElim (splitWS label).head? (.error ()) fun m =>
    optElim (monthAbbrList.findIdx? (fun x => x == m)) (.error ()) fun mi =>
      optElim ((splitWS label).drop 1).head? (.ok ((mi : ℤ) * 100)) fun tok =>
        if containsSub tok "," then
          optElim (strToInt (removeCommas tok)) (.ok ((mi : ℤ) * 100)) fun d =>
            .ok ((mi : ℤ) * 100 + d)
        else
          optElim (strToInt tok) (.ok ((mi : ℤ) * 100)) fun y =>
            .ok (y * 100 + (mi : ℤ))

/-- Compute all sort keys left-to-right (the first failure aborts the
whole function), then sort ascending (stable). -/
def mapKeysExc (f : String → Except Unit ℤ) : List TSPoint → Except Unit (List (ℤ × TSPoint))
  | [] => .ok []
  | p :: ps =>
    exceptElim (f p.display_key) (fun u => .error u) fun k =>
      okThen (mapKeysExc f ps) fun rest => .ok ((k, p) :: rest)

def sortPointsBy (f : String → Except Unit ℤ) (items : List TSPoint) :
    Except Unit (List TSPoint) :=
  okThen (mapKeysExc f items) fun keyed =>
    .ok ((sortLeB (fun a b => decide (a.1 ≤ b.1)) keyed).map Prod.snd)

/-- The interval-specific sort step (lines 533-611). -/
def sortGroups (interval : String) (items : List TSPoint) : Except Unit (List TSPoint) :=
  if interval == "hour" then sortPointsBy hourSortKey items
  else if interval == "day" then sortPointsBy daySortKey items
  else if interval == "week" then
    .ok (sortLeB (fun a b => decide (weekSortKey a.display_key ≤ weekSortKey b.display_key))
      items)
  else if interval == "month" then sortPointsBy monthSortKey items
  else .ok items

/-- The synthetic zero-valued data point built from `datetime.now()` when
no data points were generated (lines 616-644). -/
def syntheticPoint (now : DT) (interval : String) : TSPoint :=
  if interval == "day" then
    zeroPoint (hourLabel now)
      (monthAbbr now.month ++ " " ++ natToStr now.day ++ ", " ++ hourLabel now)
  else if interval == "week" then
    let sunday := subDays (pyWeekday now + 1) now
    zeroPoint (monthAbbr sunday.month ++ " " ++ natToStr sunday.day)
      (monthAbbr sunday.month ++ " " ++ natToStr sunday.day ++ " - "
        ++ natToStr (addDays 6 sunday).day ++ ", " ++ pad4 sunday.year)
  else
    zeroPoint (monthAbbr now.month ++ " " ++ pad4 now.year)
      (monthFull now.month ++ " " ++ pad4 now.year)

structure TSResult where
  data : List TSPoint
deriving DecidableEq, Repr

/-- `get_timeseries_data`: empty logs return an empty data list at once;
for the day view only the end-date's logs are kept; logs are sorted by
raw timestamp, grouped, the interval sort applied (whose exception the
function-level handler converts to an empty data list), and an empty
result is replaced by one synthetic zero point from the current instant. -/
def getTimeseriesData (now : DT) (altTable : List AltRow) (priceTable : List PriceRow)
    (logs : List TSLog) (interval metric : String) (endDate : DT) : TSResult :=
  if logs.isEmpty then { data := [] }
  else
    let logs1 :=
      if interval == "day" then logs.filter (fun l => tsOnDate l.timestamp endDate)
      else logs
    let logs2 := sortLeB (fun a b => strLeB (tsRender a.timestamp) (tsRender b.timestamp)) logs1
    let grouped := buildGroups interval metric (getModelAlternatives altTable priceTable) logs2
    exceptElim (sortGroups interval grouped) (fun _ => { data := [] }) fun result =>
      if result.isEmpty then { data := [syntheticPoint now interval] }
      else { data := result }

/-- C6 (amended): when the filtered event set is empty the engine returns
an *empty* data list (no synthetic point); the single synthetic zero point
with labels from the current instant is produced exactly when events exist
but none survives the day view's end-date restriction, so no data point is
generated. -/
theorem C6_empty_day_series (now endDate : DT) (altTable : List AltRow)
    (priceTable : List PriceRow) (metric : String) :
    getTimeseriesData now altTable priceTable [] "day" metric endDate = { data := [] } ∧
    ∀ logs : List TSLog, logs ≠ [] →
      (∀ l ∈ logs, tsOnDate l.timestamp endDate = false) →
      getTimeseriesData now altTable priceTable logs "day" metric endDate
        = { data := [syntheticPoint now "day"] } := by
  constructor
  · rfl
  · intro logs hne hnone
    obtain ⟨l, ls, rfl⟩ := List.exists_cons_of_ne_nil hne
    have hfl : List.filter (fun x => tsOnDate x.timestamp endDate) (l :: ls) = [] :=
      List.filter_eq_nil_iff.mpr (fun a ha => by simp [hnone a ha])
    rw [getTimeseriesData]
    simp [hfl, sortLeB, buildGroups, sortGroups, sortPointsBy, mapKeysExc]

def c6wNow : DT :=
  { year := 2025, month := 5, day := 16, hour := 14, minute := 30, second := 0 }

def c6wEnd : DT :=
  { year := 2025, month := 5, day := 10, hour := 0, minute := 0, second := 0 }

def c6wLog : TSLog :=
  { timestamp := .iso { year := 2025, month := 5, day := 9, hour := 11, minute := 0, second := 0 }
    model := "m", prompt_tokens := .num 10, completion_tokens := .num 5
    total_tokens := .num 15, total_cost := .num 2 }

/-- C6 witness: one event exists but lies on May 9 while the day view keys
on the May 10 end date, so the result is the single synthetic zero point
labelled from the current instant. -/
theorem C6_empty_day_series_witness :
    (([c6wLog] : List TSLog) ≠ [] ∧ ∀ l ∈ [c6wLog], tsOnDate l.timestamp c6wEnd = false) ∧
    getTimeseriesData c6wNow [] [] [c6wLog] "day" "tokens" c6wEnd
      = { data := [syntheticPoint c6wNow "day"] } :=
  ⟨⟨by simp, by intro l hl; rw [List.mem_singleton.mp hl]; decide⟩,
    (C6_empty_day_series c6wNow c6wEnd [] [] "tokens").2 [c6wLog] (by simp)
      (by intro l hl; rw [List.mem_singleton.mp hl]; decide)⟩

/-- C6 counterexample: an empty filtered event set at granularity `day`
returns zero data points, not the one synthetic zero point the claim
requires (`if not logs: return {"data": []}` precedes the synthetic-point
branch). -/
theorem C6_empty_day_series_counterexample :
    getTimeseriesData c6wNow [] [] [] "day" "tokens" c6wEnd = { data := [] } ∧
    (getTimeseriesData c6wNow [] [] [] "day" "tokens" c6wEnd).data.length = 0 :=
  ⟨rfl, rfl⟩

set_option maxHeartbeats 2000000 in
/-- C9 (amended): only the *week* branch derives its sort key totally —
it never faults, and every strftime-generated weekday label (weekday
abbreviation plus a day number up to 31) keys strictly before the
`"Unknown Date"` fallback label, which therefore sorts last.  For the
hour, day and month branches an unparseable label raises
(`int()`/`list.index()`), which the function-level handler converts into
an empty data set — the sort is not total there and parseable points are
lost (see the counterexample). -/
theorem C9_label_sort_partial :
    (∀ items, sortGroups "week" items
      = .ok (sortLeB
          (fun a b => decide (weekSortKey a.display_key ≤ weekSortKey b.display_key)) items)) ∧
    (∀ (w : String) (d : ℕ), w ∈ weekAbbrList → d ≤ 31 →
      weekSortKey (w ++ " " ++ natToStr d) < weekSortKey "Unknown Date") ∧
    hourSortKey "Unknown Date" = .error () ∧
    daySortKey "Unknown Date" = .error () ∧
    monthSortKey "Unknown Date" = .error () := by
  refine ⟨fun items => rfl, ?_, rfl, rfl, rfl⟩
  intro w d hw hd
  have hbound : ∀ w' ∈ weekAbbrList, ∀ d' < 32,
      weekSortKey (w' ++ " " ++ natToStr d') < weekSortKey "Unknown Date" := by decide
  exact hbound w hw d (by omega)

/-- C9 witness: the generated label `"Mon 5"` sorts before
`"Unknown Date"` in the week branch, and the week sort succeeds on any
item list. -/
theorem C9_label_sort_partial_witness :
    ("Mon" ∈ weekAbbrList ∧ (5 : ℕ) ≤ 31) ∧
    weekSortKey ("Mon" ++ " " ++ natToStr 5) < weekSortKey "Unknown Date" ∧
    sortGroups "week" []
      = .ok (sortLeB
          (fun a b => decide (weekSortKey a.display_key ≤ weekSortKey b.display_key)) []) :=
  ⟨⟨by decide, by decide⟩,
    C9_label_sort_partial.2.1 "Mon" 5 (by decide) (by decide),
    C9_label_sort_partial.1 []⟩

def c9Now : DT :=
  { year := 2025, month := 6, day := 1, hour := 9, minute := 0, second := 0 }

def c9End : DT :=
  { year := 2024, month := 5, day := 31, hour := 0, minute := 0, second := 0 }

def c9good : TSLog :=
  { timestamp := .iso { year := 2024, month := 5, day := 16, hour := 12, minute := 0, second := 0 }
    model := "m", prompt_tokens := .num 10, completion_tokens := .num 5
    total_tokens := .num 15, total_cost := .num 2 }

def c9bad : TSLog :=
  { timestamp := .bad "garbage", model := "m", prompt_tokens := .num 1
    completion_tokens := .num 1, total_tokens := .num 2, total_cost := .num 1 }

/-- C9 counterexample: at month granularity a row whose timestamp fails to
parse is grouped under the `"Unknown Date"` label; deriving its sort key
calls `list.index('Unknown')`, which raises `ValueError` instead of
assigning a sorts-last key, and the function-level handler then returns an
empty data set — even the parseable May 16 point (which alone yields one
data point) is lost. -/
theorem C9_label_sort_counterexample :
    monthSortKey (extractDateKey "month" c9bad.timestamp) = .error () ∧
    getTimeseriesData c9Now [] [] [c9good, c9bad] "month" "tokens" c9End = { data := [] } ∧
    (getTimeseriesData c9Now [] [] [c9good] "month" "tokens" c9End).data.length = 1 := by
  have hcmp : strLeB (tsRender c9good.timestamp) (tsRender c9bad.timestamp) = true := by decide
  have hkg : extractDateKey "month" c9good.timestamp = "May 16" := by decide
  have hie : "garbage".isEmpty = false := by decide
  have hm1 : monthSortKey "May 16" = .ok 1604 := rfl
  have hm2 : monthSortKey "Unknown Date" = .error () := rfl
  refine ⟨rfl, ?_, ?_⟩
  · rw [getTimeseriesData]
    simp only [List.isEmpty_cons, Bool.false_eq_true, if_false]
    simp [sortLeB, insertLeB, hcmp, buildGroups, groupStep, c9good, c9bad, tsFalsy,
      hie, extractDateKey, anyKey, rowNums, intConv, floatConv, updatePoint, bumpPoint,
      zeroPoint, sortGroups, sortPointsBy, mapKeysExc, hm1, hm2, monthAbbr,
      monthAbbrList, natToStr, digitChar]
  · rw [getTimeseriesData]
    simp [sortLeB, insertLeB, buildGroups, groupStep, c9good, tsFalsy,
      extractDateKey, anyKey, rowNums, intConv, floatConv, updatePoint, bumpPoint,
      zeroPoint, sortGroups, sortPointsBy, mapKeysExc, hm1, monthAbbr, monthAbbrList,
      natToStr, digitChar]

/-! ### Breakdowns and Top-N capping

Embedding of `get_model_distribution` / `get_feature_distribution`
(src/backend/db/supabase_client.py) and the capping layer
`AnalyticsService.get_model_distribution` / `get_feature_usage`
(src/backend/services/analytics_service.py).  A row's missing `model` /
`endpoint_name` (`dict.get` default) is modelled with `Option`; numeric
fields are rationals. -/

structure DistLog where
  model : Option String
  endpoint_name : Option String
  total_tokens : ℚ
  prompt_tokens : ℚ
  completion_tokens : ℚ
  total_cost : ℚ
  latency_ms : ℚ
deriving DecidableEq, Repr

def updateAssoc (k : String) (f : β → β) : List (String × β) → List (String × β)
  | [] => []
  | p :: ps => if p.1 == k then (p.1, f p.2) :: ps else p :: updateAssoc k f ps

def ensureKey (k : String) (z : β) (st : List (String × β)) : List (String × β) :=
  if st.any (fun p => p.1 == k) then st else st ++ [(k, z)]

def modelKey (l : DistLog) : String := l.model.getD "unknown"

def featKey (l : DistLog) : String := l.endpoint_name.getD "default"

/-- Per-model (tokens, cost) accumulation in insertion order. -/
def modelGroups (logs : List DistLog) : List (String × (ℚ × ℚ)) :=
  logs.foldl
    (fun st l =>
      updateAssoc (modelKey l) (fun v => (v.1 + l.total_tokens, v.2 + l.total_cost))
        (ensureKey (modelKey l) (0, 0) st)) []

structure DistEntry where
  model : String
  value : ℚ
  percent : ℚ
  cost : ℚ
deriving DecidableEq, Repr

/-- `round((x / total) * 100, 1) if total > 0 else 0`. -/
def pct (x total : ℚ) : ℚ := if 0 < total then roundDp 1 (x / total * 100) else 0

/-- `get_model_distribution` (db layer): group, percentage against the
grand totals, and a stable sort by `value` descending. -/
def modelDistribution (metric : String) (logs : List DistLog) : List DistEntry :=
  if logs.isEmpty then []
  else
    let groups := modelGroups logs
    let gtok := (groups.map (fun p => p.2.1)).sum
    let gcost := (groups.map (fun p => p.2.2)).sum
    sortLeB (fun a b => decide (b.value ≤ a.value))
      (groups.map (fun p =>
        { model := p.1
          value := if metric == "tokens" then p.2.1 else p.2.2
          percent := if metric == "tokens" then pct p.2.1 gtok else pct p.2.2 gcost
          cost := p.2.2 }))

structure OtherRow where
  value : ℚ
  percent : ℚ
  cost : ℚ
deriving DecidableEq, Repr

structure ModelDistResult where
  data : List DistEntry
  other : OtherRow
deriving DecidableEq, Repr

/-- `AnalyticsService.get_model_distribution` lines 297-316: split at the
limit and sum the excluded entries into the synthetic `other` row. -/
def capModelDistribution (models : List DistEntry) (limit : ℕ) : ModelDistResult :=
  let main := if models.isEmpty then [] else models.take limit
  let others := if limit < models.length then models.drop limit else []
  { data := main
    other :=
      { value := (others.map (fun e => e.value)).sum
        percent := (others.map (fun e => e.percent)).sum
        cost := (others.map (fun e => e.cost)).sum } }

def getModelDistributionService (metric : String) (logs : List DistLog)
    (limit : ℕ) : ModelDistResult :=
  capModelDistribution (modelDistribution metric logs) limit

structure FeatAcc where
  total_tokens : ℚ
  prompt_tokens : ℚ
  completion_tokens : ℚ
  total_cost : ℚ
  total_latency : ℚ
  request_count : ℕ
  models : List (String × ℕ)
deriving DecidableEq, Repr

def zeroFeatAcc : FeatAcc :=
  { total_tokens := 0, prompt_tokens := 0, completion_tokens := 0, total_cost := 0
    total_latency := 0, request_count := 0, models := [] }

def bumpFeatAcc (l : DistLog) (a : FeatAcc) : FeatAcc :=
  { total_tokens := a.total_tokens + l.total_tokens
    prompt_tokens := a.prompt_tokens + l.prompt_tokens
    completion_tokens := a.completion_tokens + l.completion_tokens
    total_cost := a.total_cost + l.total_cost
    total_latency := a.total_latency + l.latency_ms
    request_count := a.request_count + 1
    models := updateAssoc (modelKey l) (fun n => n + 1) (ensureKey (modelKey l) 0 a.models) }

def featureGroups (logs : List DistLog) : List (String × FeatAcc) :=
  logs.foldl
    (fun st l => updateAssoc (featKey l) (bumpFeatAcc l) (ensureKey (featKey l) zeroFeatAcc st))
    []

/-- `max(models.items(), key=lambda x: x[1])[0]`: the first maximal entry
in insertion order; `'unknown'` when empty (the guarded else branch). -/
def firstMaxBy (l : List (String × ℕ)) : String :=
  match l with
  | [] => "unknown"
  | x :: xs => (xs.foldl (fun best p => if best.2 < p.2 then p else best) x).1

structure FeatureEntry where
  feature : String
  model : String
  total_tokens : ℚ
  prompt_tokens : ℚ
  completion_tokens : ℚ
  cost : ℚ
  latency_ms : ℤ
  request_count : ℕ
  value : ℚ
deriving DecidableEq, Repr

/-- `get_feature_distribution` (db layer). -/
def featureDistribution (metric : String) (logs : List DistLog) : List FeatureEntry :=
  if logs.isEmpty then []
  else
    sortLeB (fun a b => decide (b.value ≤ a.value))
      ((featureGroups logs).map (fun p =>
        { feature := p.1
          model := firstMaxBy p.2.models
          total_tokens := p.2.total_tokens
          prompt_tokens := p.2.prompt_tokens
          completion_tokens := p.2.completion_tokens
          cost := roundDp 2 p.2.total_cost
          latency_ms :=
            if 0 < p.2.request_count then rhe (p.2.total_latency / p.2.request_count) else 0
          request_count := p.2.request_count
          value := if metric == "tokens" then p.2.total_tokens else p.2.total_cost }))

/-- `AnalyticsService.get_feature_usage` lines 360-361:
`features[:limit] if features else []` — a plain truncation, with no
"other" rollup anywhere in the returned payload. -/
def capFeatureUsage (features : List FeatureEntry) (limit : ℕ) : List FeatureEntry :=
  if features.isEmpty then [] else features.take limit

theorem cap_sum_field (f : DistEntry → ℚ) (models : List DistEntry) (limit : ℕ) :
    ((if models.isEmpty then [] else models.take limit).map f).sum
        + ((if limit < models.length then models.drop limit else []).map f).sum
      = (models.map f).sum := by
  by_cases he : models.isEmpty = true
  · rw [List.isEmpty_iff.mp he]
    simp
  · rw [if_neg he]
    by_cases hl : limit < models.length
    · rw [if_pos hl, ← List.sum_append, ← List.map_append, List.take_append_drop]
    · rw [if_neg hl]
      push_neg at hl
      rw [List.take_of_length_le hl]
      simp

/-- C8 (amended): the model-distribution cap rolls every excluded entry
into the synthetic `other` row — its `value`, `percent` and `cost` are the
sums of those fields over the excluded entries, so the capped data plus
`other` conserves each field's total; the feature-usage cap, by contrast,
silently truncates to the first `limit` entries with no rollup row. -/
theorem C8_top_n_other (metric : String) (logs : List DistLog) (limit : ℕ) :
    (((getModelDistributionService metric logs limit).data.map (fun e => e.value)).sum
        + (getModelDistributionService metric logs limit).other.value
      = ((modelDistribution metric logs).map (fun e => e.value)).sum) ∧
    (((getModelDistributionService metric logs limit).data.map (fun e => e.percent)).sum
        + (getModelDistributionService metric logs limit).other.percent
      = ((modelDistribution metric logs).map (fun e => e.percent)).sum) ∧
    (((getModelDistributionService metric logs limit).data.map (fun e => e.cost)).sum
        + (getModelDistributionService metric logs limit).other.cost
      = ((modelDistribution metric logs).map (fun e => e.cost)).sum) ∧
    ((getModelDistributionService metric logs limit).data
      = (modelDistribution metric logs).take limit) ∧
    (∀ (features : List FeatureEntry) (lim : ℕ),
      capFeatureUsage features lim = features.take lim) := by
  refine ⟨cap_sum_field _ _ _, cap_sum_field _ _ _, cap_sum_field _ _ _, ?_, ?_⟩
  · rw [getModelDistributionService, capModelDistribution]
    by_cases he : (modelDistribution metric logs).isEmpty = true
    · rw [List.isEmpty_iff.mp he]
      simp
    · simp only [if_neg he]
  · intro features lim
    rw [capFeatureUsage]
    by_cases he : features.isEmpty = true
    · rw [if_pos he, List.isEmpty_iff.mp he, List.take_nil]
    · rw [if_neg he]

def c8xLog1 : DistLog :=
  { model := some "m1", endpoint_name := some "chat", total_tokens := 100
    prompt_tokens := 60, completion_tokens := 40, total_cost := 4, latency_ms := 100 }

def c8xLog2 : DistLog :=
  { model := some "m2", endpoint_name := some "search", total_tokens := 50
    prompt_tokens := 30, completion_tokens := 20, total_cost := 2, latency_ms := 80 }

def c8xLogs : List DistLog := [c8xLog1, c8xLog2]

/-- C8 counterexample: a capped feature-usage request (limit 1) over two
features returns one entry and drops the second entirely — no "other"
row exists in the payload, and the returned values sum to 100 while the
full distribution sums to 150. -/
theorem C8_feature_truncation_counterexample :
    (capFeatureUsage (featureDistribution "tokens" c8xLogs) 1).length = 1 ∧
    (featureDistribution "tokens" c8xLogs).length = 2 ∧
    ((capFeatureUsage (featureDistribution "tokens" c8xLogs) 1).map
      (fun e => e.value)).sum = 100 ∧
    ((featureDistribution "tokens" c8xLogs).map (fun e => e.value)).sum = 150 := by
  have h : featureDistribution "tokens" c8xLogs =
      [{ feature := "chat", model := firstMaxBy [("m1", 1)], total_tokens := 100
         prompt_tokens := 60, completion_tokens := 40
         cost := roundDp 2 (0 + 4)
         latency_ms := rhe ((0 + 100) / (1 : ℚ)), request_count := 1, value := 100 },
       { feature := "search", model := firstMaxBy [("m2", 1)], total_tokens := 50
         prompt_tokens := 30, completion_tokens := 20
         cost := roundDp 2 (0 + 2)
         latency_ms := rhe ((0 + 80) / (1 : ℚ)), request_count := 1, value := 50 }] := by
    rw [featureDistribution]
    simp [c8xLogs, c8xLog1, c8xLog2, featureGroups, featKey, modelKey, ensureKey,
      updateAssoc, zeroFeatAcc, bumpFeatAcc, sortLeB, insertLeB]
    norm_num
  rw [h, capFeatureUsage]
  norm_num

end TokenOptimizer
